import Mathlib

/-!
Shallow embedding of the sandboxed-execution / message-protocol subsystem of
the repository: the srcdoc document assembler and injected bridge fragments
(runner.js), the host-side runner controller, the injected asset-resolution
layer, and the hover-capture star-tile driver (tree/render.js).

Strings are modelled as `List Char`; the JavaScript regex passes are
implemented as explicit character scanners with the same first-match /
global-match semantics.  Recursions that consume a variable number of
characters are written with an explicit fuel argument (initialised to the
input length, which always suffices) so that every definition evaluates
inside the kernel.
-/

set_option maxRecDepth 100000

/-- Character lists, the working representation of JavaScript strings. -/
abbrev Str := List Char

/-- Case-insensitive character equality (the i flag of the runner regexes). -/
def chEqCI (a b : Char) : Bool := a.toLower == b.toLower

/-- Case-sensitive prefix test (JavaScript startsWith). -/
def startsWithL (pat l : Str) : Bool := List.isPrefixOf pat l

/-- Case-insensitive prefix test. -/
def startsCI : Str → Str → Bool
  | [], _ => true
  | _ :: _, [] => false
  | p :: ps, c :: cs => chEqCI p c && startsCI ps cs

/-- Case-sensitive substring occurrence (JavaScript includes). -/
def containsSub (pat : Str) : Str → Bool
  | [] => startsWithL pat []
  | c :: cs => startsWithL pat (c :: cs) || containsSub pat cs

/-- Case-insensitive substring occurrence (regex test with the i flag). -/
def containsCI (pat : Str) : Str → Bool
  | [] => startsCI pat []
  | c :: cs => startsCI pat (c :: cs) || containsCI pat cs

/-- Locate the first case-insensitive occurrence of pat: the part before the
occurrence and the remainder starting at the occurrence. -/
def splitAtPatCI (pat : Str) : Str → Option (Str × Str)
  | [] => if startsCI pat [] then some ([], []) else none
  | c :: cs =>
    if startsCI pat (c :: cs) then some ([], c :: cs)
    else
      match splitAtPatCI pat cs with
      | some (pre, rest) => some (c :: pre, rest)
      | none => none

/-- Split at the first occurrence of ch: the input is pre ++ ch :: post. -/
def splitAtChar (ch : Char) : Str → Option (Str × Str)
  | [] => none
  | c :: cs =>
    if c == ch then some ([], cs)
    else
      match splitAtChar ch cs with
      | some (pre, post) => some (c :: pre, post)
      | none => none

/-- ASCII whitespace, the model of the JavaScript regex class backslash-s. -/
def isWsChar (c : Char) : Bool :=
  c == ' ' || c == '\t' || c == '\n' || c == '\r' || c == '\x0b' || c == '\x0c'

/-- JavaScript String.prototype.trim (modelled on ASCII whitespace). -/
def trimL (l : Str) : Str :=
  List.reverse (List.dropWhile isWsChar (List.reverse (List.dropWhile isWsChar l)))

/-- Case-sensitive suffix test (JavaScript endsWith). -/
def endsWithL (pat l : Str) : Bool := startsWithL pat.reverse l.reverse

/-- Accumulator for lastSegment: current segment so far. -/
def lastSegAux (cur : Str) : Str → Str
  | [] => cur
  | c :: cs => if c == '/' then lastSegAux [] cs else lastSegAux (cur ++ [c]) cs

/-- JavaScript path.split("/").pop(): the final slash-separated segment. -/
def lastSegment (l : Str) : Str := lastSegAux [] l

/-- Strip every leading slash (the while-loop of the asset layer, and the
regex replace of a leading slash run in the assembler). -/
def dropSlashes : Str → Str
  | '/' :: cs => dropSlashes cs
  | l => l

/-- JavaScript a or-else b on strings: the empty string is falsy. -/
def jsOr (a b : Str) : Str := if a.isEmpty then b else a

/-- JavaScript (maybeUndefined or-else b) on an optional string. -/
def jsOrOpt (a : Option Str) (b : Str) : Str :=
  match a with
  | some v => jsOr v b
  | none => b

/-- Join string parts with a separator (JavaScript Array.prototype.join). -/
def joinSep (sep : Str) : List Str → Str
  | [] => []
  | [x] => x
  | x :: y :: xs => x ++ sep ++ joinSep sep (y :: xs)

/-- Logical file set: insertion-ordered association list path → content,
the JavaScript files object handed to the runner. -/
abbrev FileSet := List (Str × Str)

/-- JavaScript property read files[p]. -/
def FileSet.get (files : FileSet) (p : Str) : Option Str :=
  match files with
  | [] => none
  | (k, v) :: rest => if k == p then some v else FileSet.get rest p

/-- JavaScript Object.keys(files). -/
def FileSet.keys (files : FileSet) : List Str := files.map Prod.fst

/-- The sentinel at the start of uploaded-asset contents. -/
def uploadedFileMarker : Str := "#UPLOADED_FILE#".data

/-- The built-in stylesheet of the runner (the first element of parts in
buildCss of runner.js). -/
def runnerBaseCss : String := "
html.__p5runner, body.__p5runner \x7b
  width:100%;
  height:100%;
  margin:0;
  background:#000;
  overflow:hidden;
\x7d

/* Only stretch canvas in fallback mode */
body.__p5runner canvas \x7b
  width:100% !important;
  height:100% !important;
  display:block;
\x7d

/* Fit-to-frame mode (used by starred hover tiles).
   Applied only when we add the __p5fit class to html/body in the srcdoc. */
html.__p5fit, body.__p5fit \x7b
  width: 100%;
  height: 100%;
  margin: 0;
  padding: 0;
  background: #000;
  overflow: hidden;
  position: relative;
  box-sizing: border-box;
\x7d

/* Force the primary canvas to fill the iframe perfectly */
body.__p5fit \x7b
  display: flex;
  align-items: center;
  justify-content: center;
\x7d

body.__p5fit canvas \x7b
  width: 100% !important;
  height: 100% !important;
  max-width: 100% !important;
  max-height: 100% !important;
  display: block !important;
  object-fit: contain;
  margin: 0 !important;
  padding: 0 !important;
  position: absolute;
  top: 0;
  left: 0;
\x7d

/* For starred tiles, let canvas be natural size (no fit-to-frame) */
html:not(.__p5fit) body:not(.__p5fit) \x7b
  margin: 0;
  padding: 0;
  background: #000;
  display: flex;
  align-items: center;
  justify-content: center;
  min-height: 100vh;
\x7d

html:not(.__p5fit) body:not(.__p5fit) canvas \x7b
  display: block;
  margin: 0 auto;
\x7d
"

/-- buildCss of runner.js: the base stylesheet followed by the content of
every css file, joined by newlines.  The fitToFrame argument is accepted and
unused, exactly as in the source. -/
def buildCss (files : FileSet) (fitToFrame : Bool) : Str :=
  joinSep "\n".data
    (runnerBaseCss.data ::
      (files.filter (fun pc => endsWithL ".css".data pc.1)).map
        (fun pc => "/* ".data ++ pc.1 ++ " */\n".data ++ pc.2))

/-- The conventional entry-point script name. -/
def sketchJsName : Str := "sketch.js".data

/-- The js-suffixed keys of the file set, in insertion order. -/
def jsPaths (files : FileSet) : List Str :=
  (FileSet.keys files).filter (fun p => endsWithL ".js".data p)

/-- The script ordering of buildJs: sketch.js, when present, is moved last;
all other scripts keep their relative order. -/
def orderedJsPaths (files : FileSet) : List Str :=
  let paths := jsPaths files
  if paths.contains sketchJsName then
    paths.filter (fun p => p != sketchJsName) ++ [sketchJsName]
  else paths

/-- buildJs of runner.js: each script prefixed by a path comment, joined by
newlines, in the sketch.js-last order. -/
def buildJs (files : FileSet) : Str :=
  joinSep "\n".data
    ((orderedJsPaths files).map
      (fun p => "// ".data ++ p ++ "\n".data ++ jsOrOpt (FileSet.get files p) []))

/-- The closing script tag searched for (gi flags) when inlining scripts. -/
def closeScriptTag : Str := "</script>".data

/-- The escaped replacement written for a closing script tag. -/
def escapedCloseScriptTag : Str := "<\\/script>".data

/-- Fuel-driven scanner for the global case-insensitive replace of closing
script tags; fuel at least the input length gives the replace semantics. -/
def escapeScriptCloseAux : Nat → Str → Str
  | 0, l => l
  | _ + 1, [] => []
  | fuel + 1, c :: cs =>
    if startsCI closeScriptTag (c :: cs) then
      escapedCloseScriptTag ++ escapeScriptCloseAux fuel (List.drop 8 cs)
    else c :: escapeScriptCloseAux fuel cs

/-- The replace of closing script tags (gi flags) applied to inlined script
content in buildFromUserIndexHtml and in buildFallbackShell. -/
def escapeScriptClose (l : Str) : Str := escapeScriptCloseAux l.length l

/-- buildConsoleInterceptionScript of runner.js: the console-interception
fragment injected as the first element of the head. -/
def buildConsoleInterceptionScript : String := "
<script>
(function()\x7b
  // Intercept console methods IMMEDIATELY (before any user scripts run)
  const originalLog = console.log;
  const originalWarn = console.warn;
  const originalError = console.error;

  function sendConsole(level, args) \x7b
    try \x7b
      parent.postMessage(\x7b
        type: \"CONSOLE_\" + level.toUpperCase(),
        args: Array.from(args).map(arg => \x7b
          if (typeof arg === \"object\" && arg !== null) \x7b
            try \x7b
              return JSON.stringify(arg, null, 2);
            \x7d catch \x7b
              return String(arg);
            \x7d
          \x7d
          return String(arg);
        \x7d)
      \x7d, \"*\");
    \x7d catch (e) \x7b
      // Ignore errors
    \x7d
  \x7d

  console.log = function(...args) \x7b
    originalLog.apply(console, args);
    sendConsole(\"log\", args);
  \x7d;

  console.warn = function(...args) \x7b
    originalWarn.apply(console, args);
    sendConsole(\"warn\", args);
  \x7d;

  console.error = function(...args) \x7b
    originalError.apply(console, args);
    sendConsole(\"error\", args);
  \x7d;

  // Catch uncaught errors
  window.addEventListener(\"error\", (e) => \x7b
    // Handle image loading errors specifically
    if (e.target && e.target.tagName === \x27IMG\x27) \x7b
      const imgSrc = e.target.src || e.target.getAttribute(\x27src\x27) || \x27unknown\x27;
      sendConsole(\"error\", [\"Failed to load image: \" + imgSrc, e.filename + \":\" + e.lineno]);
    \x7d else \x7b
      sendConsole(\"error\", [e.message || String(e), e.filename + \":\" + e.lineno]);
    \x7d
  \x7d);

  // Catch unhandled promise rejections
  window.addEventListener(\"unhandledrejection\", (e) => \x7b
    sendConsole(\"error\", [\"Unhandled promise rejection:\", e.reason]);
  \x7d);
\x7d)();
</script>"

/-- Thumb-bridge template up to the first nodeId interpolation. -/
def thumbBridgePartA : String := "
<script>
(function()\x7b
  function findCanvas() \x7b
    // p5 default canvas is just <canvas> appended to body; also allow multiple canvases
    const c = document.querySelector(\"canvas\");
    return c || null;
  \x7d

  function sendThumb(nonce) \x7b
    const c = findCanvas();
    if (!c) \x7b
      parent.postMessage(\x7b
        type: \"P5_THUMB_ERR\",
        nodeId: \""

/-- Thumb-bridge template between the first and second interpolation. -/
def thumbBridgePartB : String := "\",
        error: \"No canvas found\",
        nonce
      \x7d, \"*\");
      return;
    \x7d
    try \x7b
      parent.postMessage(\x7b
        type: \"P5_THUMB\",
        nodeId: \""

/-- Thumb-bridge template between the second and third interpolation. -/
def thumbBridgePartC : String := "\",
        dataUrl: c.toDataURL(\"image/png\"),
        nonce
      \x7d, \"*\");
    \x7d catch (e) \x7b
      parent.postMessage(\x7b
        type: \"P5_THUMB_ERR\",
        nodeId: \""

/-- Thumb-bridge template between the third and fourth interpolation. -/
def thumbBridgePartD : String := "\",
        error: String(e),
        nonce
      \x7d, \"*\");
    \x7d
  \x7d

  function sendCanvasDimensions() \x7b
    const c = findCanvas();
    if (c) \x7b
      parent.postMessage(\x7b
        type: \"P5_CANVAS_DIM\",
        nodeId: \""

/-- Thumb-bridge template between the fourth and fifth interpolation. -/
def thumbBridgePartE : String := "\",
        width: c.width,
        height: c.height
      \x7d, \"*\");
    \x7d
  \x7d

  function sendThumbWhenReady(nonce) \x7b
    // retry for up to ~1s (20 * 50ms)
    let tries = 0;
    const maxTries = 20;

    function tick() \x7b
      const c = findCanvas();
      if (c) \x7b
        // wait a frame so it has a chance to draw at least once
        requestAnimationFrame(() => \x7b
          sendThumb(nonce);
          sendCanvasDimensions();
        \x7d);
        return;
      \x7d
      tries++;
      if (tries >= maxTries) \x7b
        parent.postMessage(\x7b
          type: \"P5_THUMB_ERR\",
          nodeId: \""

/-- Thumb-bridge template after the fifth interpolation. -/
def thumbBridgePartF : String := "\",
          error: \"Canvas not created in time\",
          nonce
        \x7d, \"*\");
        return;
      \x7d
      setTimeout(tick, 50);
    \x7d

    tick();
  \x7d

  // Send canvas dimensions when canvas is ready (for starred tiles)
  let dimsSent = false;
  function trySendCanvasDims() \x7b
    const c = findCanvas();
    if (c && !dimsSent) \x7b
      dimsSent = true;
      // Wait a frame to ensure canvas is fully initialized
      requestAnimationFrame(() => \x7b
        sendCanvasDimensions();
      \x7d);
    \x7d
  \x7d

  // Try to send dimensions periodically until canvas is ready
  const dimsInterval = setInterval(() => \x7b
    trySendCanvasDims();
    if (dimsSent) clearInterval(dimsInterval);
  \x7d, 50);

  // Also try on window load
  if (document.readyState === \"complete\") \x7b
    trySendCanvasDims();
  \x7d else \x7b
    window.addEventListener(\"load\", trySendCanvasDims);
  \x7d

  window.addEventListener(\"message\", function(ev)\x7b
    const d = ev.data;
    if (!d || typeof d !== \"object\") return;

    if (d.type === \"REQ_THUMB\") \x7b
      sendThumbWhenReady(d.nonce ?? null);
    \x7d

    if (d.type === \"P5_PAUSE\" && window.noLoop) window.noLoop();
    if (d.type === \"P5_RESUME\" && window.loop) window.loop();
  \x7d);
\x7d)();
</script>
"

/-- buildThumbBridgeScript of runner.js: the thumbnail bridge fragment with
the node identifier interpolated at its five reply sites. -/
def buildThumbBridgeScript (nodeId : Str) : Str :=
  thumbBridgePartA.data ++ nodeId ++ thumbBridgePartB.data ++ nodeId ++
    thumbBridgePartC.data ++ nodeId ++ thumbBridgePartD.data ++ nodeId ++
    thumbBridgePartE.data ++ nodeId ++ thumbBridgePartF.data

/-- The default rendering-library script tag embedded by the assembler. -/
def defaultP5ScriptTag : String :=
  "<script src=\"https://cdn.jsdelivr.net/npm/p5@1.9.0/lib/p5.min.js\"></script>"

/-- Fallback-shell template before the inline stylesheet. -/
def fallbackShellA : String := "
<!doctype html>
<html class=\"__p5runner\">
<head>
<meta charset=\"utf-8\" />
<meta name=\"viewport\" content=\"width=device-width, initial-scale=1.0\" />
<style>"

/-- Fallback-shell template between the stylesheet and the thumb bridge. -/
def fallbackShellB : String := "</style>
</head>
<body class=\"__p5runner\">
"

/-- Fallback-shell template between the thumb bridge and the inline script. -/
def fallbackShellC : String := "
<script src=\"https://cdn.jsdelivr.net/npm/p5@1.9.0/lib/p5.min.js\"></script>
<script>"

/-- Fallback-shell template after the inline script. -/
def fallbackShellD : String := "</script>
</body>
</html>"

/-- buildFallbackShell of runner.js: the synthesized document used when the
file set has no entry HTML document. -/
def buildFallbackShell (nodeId cssText jsText : Str) : Str :=
  let escapedJsText := if jsText.isEmpty then [] else escapeScriptClose jsText
  fallbackShellA.data ++ cssText ++ fallbackShellB.data ++
    buildThumbBridgeScript nodeId ++ fallbackShellC.data ++ escapedJsText ++
    fallbackShellD.data

/-- Case-insensitive suffix test. -/
def endsWithCI (pat l : Str) : Bool := startsCI pat.reverse l.reverse

/-- Replace the first case-insensitive occurrence of pat by rep (the
JavaScript replace of a literal-only regex with the i flag). -/
def replaceFirstCI (pat rep l : Str) : Str :=
  match splitAtPatCI pat l with
  | none => l
  | some (pre, rest) => pre ++ rep ++ List.drop pat.length rest

/-- First match of an opening-tag regex (tagName then any non-gt run then
gt, i flag): the part before the match, the matched tag text, and the part
after.  When the first tag-name occurrence has no closing gt anywhere after
it, no later occurrence can complete either, so the whole match fails. -/
def matchTagOpenCI (tagName : Str) (l : Str) : Option (Str × Str × Str) :=
  match splitAtPatCI ('<' :: tagName) l with
  | none => none
  | some (pre, rest) =>
    match splitAtChar '>' rest with
    | none => none
    | some (tagBody, post) => some (pre, tagBody ++ ['>'], post)

/-- Head-presence repair of buildFromUserIndexHtml: append an empty head
after the html open tag when no head text occurs. -/
def ensureHead (html : Str) : Str :=
  if containsCI "<head".data html then html
  else
    match matchTagOpenCI "html".data html with
    | none => html
    | some (pre, tag, post) => pre ++ tag ++ "<head></head>".data ++ post

/-- Body-presence repair of buildFromUserIndexHtml: append an empty body
after the head close tag when no body text occurs. -/
def ensureBody (html : Str) : Str :=
  if containsCI "<body".data html then html
  else replaceFirstCI "</head>".data "</head><body></body>".data html

/-- The console-interception injection of buildFromUserIndexHtml: the
fragment is inserted directly after the first head open tag. -/
def injectConsole (html : Str) : Str :=
  match matchTagOpenCI "head".data html with
  | none => html
  | some (pre, tag, post) => pre ++ tag ++ buildConsoleInterceptionScript.data ++ post

/-- First match of the class-attribute regex of addClassToTag at the very
start of the input: the captured class list and the rest after the match. -/
def matchClassAttrAt (l : Str) : Option (Str × Str) :=
  match l with
  | [] => none
  | c :: cs =>
    if isWsChar c && startsCI "class".data cs then
      let t1 := List.dropWhile isWsChar (List.drop 5 cs)
      match t1 with
      | '=' :: t2 =>
        let t3 := List.dropWhile isWsChar t2
        match t3 with
        | q :: t4 =>
          if q == '"' || q == '\x27' then
            let cls := t4.takeWhile (fun d => !(d == '"' || d == '\x27'))
            match List.drop cls.length t4 with
            | q2 :: t6 =>
              if q2 == '"' || q2 == '\x27' then some (cls, t6) else none
            | [] => none
          else none
        | [] => none
      | _ => none
    else none

/-- First match of the class-attribute regex anywhere in the input: the part
before the match, the captured class list, and the rest after the match. -/
def matchClassAttr : Str → Option (Str × Str × Str)
  | [] => none
  | c :: cs =>
    match matchClassAttrAt (c :: cs) with
    | some (cls, rest) => some ([], cls, rest)
    | none =>
      match matchClassAttr cs with
      | some (pre, cls, rest) => some (c :: pre, cls, rest)
      | none => none

/-- Split on every whitespace character (with the empty pieces then removed
this is the JavaScript split on a whitespace run). -/
def wordsWsAux (cur : Str) : Str → List Str
  | [] => [cur]
  | c :: cs => if isWsChar c then cur :: wordsWsAux [] cs else wordsWsAux (cur ++ [c]) cs

/-- addClassToTag of runner.js: add className to the first occurrence of the
named tag, preserving existing classes. -/
def addClassToTag (html tagName className : Str) : Str :=
  match matchTagOpenCI tagName html with
  | none => html
  | some (pre, tag, post) =>
    let attrs := List.dropLast (List.drop (1 + tagName.length) tag)
    match matchClassAttr attrs with
    | some (apre, cls, apost) =>
      let parts := (wordsWsAux [] cls).filter (fun w => !w.isEmpty)
      let parts2 := if parts.contains className then parts else parts ++ [className]
      pre ++ ('<' :: tagName ++ apre ++ " class=\"".data ++ joinSep " ".data parts2 ++ "\"".data ++ apost ++ ">".data) ++ post
    | none =>
      pre ++ ('<' :: tagName ++ attrs ++ " class=\"".data ++ className ++ "\"".data ++ ">".data) ++ post

/-- Tail of the css-link regex after its href marker: opening quote, a
quote-free url that must end in .css, closing quote, a gt-free run, gt.
Returns the captured url and the consumed length. -/
def cssLinkTail (t : Str) : Option (Str × Nat) :=
  match t with
  | [] => none
  | q :: t2 =>
    if q == '"' || q == '\x27' then
      let url := t2.takeWhile (fun d => !(d == '"' || d == '\x27'))
      if endsWithCI ".css".data url then
        match List.drop url.length t2 with
        | q2 :: t4 =>
          if q2 == '"' || q2 == '\x27' then
            let skip := t4.takeWhile (fun d => !(d == '>'))
            match List.drop skip.length t4 with
            | _ :: _ => some (url, 1 + url.length + 1 + skip.length + 1)
            | [] => none
          else none
        | [] => none
      else none
    else none

/-- One greedy candidate of the css-link regex: the href marker at offset k
inside the attribute region, then the tail. -/
def cssHrefTry (s : Str) (k : Nat) : Option (Str × Nat) :=
  if startsCI "href=".data (List.drop k s) then
    match cssLinkTail (List.drop (k + 5) s) with
    | some (href, consumed) => some (href, k + 5 + consumed)
    | none => none
  else none

/-- Greedy backtracking over href candidates, highest offset first (the
greedy any-non-gt run of the css-link regex). -/
def cssHrefSearch (s : Str) : Nat → Option (Str × Nat)
  | 0 => cssHrefTry s 0
  | k + 1 =>
    match cssHrefTry s (k + 1) with
    | some r => some r
    | none => cssHrefSearch s k

/-- First-position match of the css-link regex: captured href and total
matched length. -/
def tryMatchCssLink (l : Str) : Option (Str × Nat) :=
  if startsCI "<link".data l then
    let s := List.drop 5 l
    let span := s.takeWhile (fun d => !(d == '>'))
    match cssHrefSearch s span.length with
    | some (href, total) => some (href, 5 + total)
    | none => none
  else none

/-- Callback of the css-link replace: inline the stylesheet content when the
file set resolves the href (by full path, then by bare filename), otherwise
keep the match. -/
def cssLinkCallback (files : FileSet) (matched href : Str) : Str :=
  let cssContent := jsOrOpt (files.get href) (jsOrOpt (files.get (lastSegment href)) [])
  if cssContent.isEmpty then matched
  else "<style>".data ++ cssContent ++ "</style>".data

/-- Fuel-driven global css-link replace scanner. -/
def replaceCssLinksAux (files : FileSet) : Nat → Str → Str
  | 0, l => l
  | _ + 1, [] => []
  | fuel + 1, c :: cs =>
    match tryMatchCssLink (c :: cs) with
    | some (href, n) =>
      cssLinkCallback files ((c :: cs).take n) href ++
        replaceCssLinksAux files fuel (List.drop n (c :: cs))
    | none => c :: replaceCssLinksAux files fuel cs

/-- The global replace of css link tags in buildFromUserIndexHtml. -/
def replaceCssLinks (files : FileSet) (l : Str) : Str :=
  replaceCssLinksAux files l.length l

/-- Tail of the script-src regex after its src marker: opening quote, a
quote-free url that must end in .js, closing quote, the lazy gt-free third
group, gt, then immediately a closing script tag.  Returns the captured url,
the third group, and the consumed length. -/
def scriptSrcTail (t : Str) : Option (Str × Str × Nat) :=
  match t with
  | [] => none
  | q :: t2 =>
    if q == '"' || q == '\x27' then
      let url := t2.takeWhile (fun d => !(d == '"' || d == '\x27'))
      if endsWithCI ".js".data url then
        match List.drop url.length t2 with
        | q2 :: t4 =>
          if q2 == '"' || q2 == '\x27' then
            let g3 := t4.takeWhile (fun d => !(d == '>'))
            match List.drop g3.length t4 with
            | gt :: t6 =>
              if gt == '>' && startsCI closeScriptTag t6 then
                some (url, g3, 1 + url.length + 1 + g3.length + 1 + 9)
              else none
            | [] => none
          else none
        | [] => none
      else none
    else none

/-- Lazy candidate search of the script-src regex: the first src marker
(reachable without crossing a gt) whose tail completes wins; the consumed
attribute characters form the first capture group. -/
def tryMatchScriptAtAux (before s : Str) : Option (Str × Str × Str × Nat) :=
  match s with
  | [] => none
  | c :: cs =>
    if startsCI "src=".data (c :: cs) then
      match scriptSrcTail (List.drop 4 (c :: cs)) with
      | some (url, g3, consumed) => some (before, url, g3, before.length + 4 + consumed)
      | none =>
        if c == '>' then none else tryMatchScriptAtAux (before ++ [c]) cs
    else
      if c == '>' then none else tryMatchScriptAtAux (before ++ [c]) cs

/-- First-position match of the script-src regex: the three capture groups
and the total matched length. -/
def tryMatchScriptTag (l : Str) : Option (Str × Str × Str × Nat) :=
  if startsCI "<script".data l then
    match tryMatchScriptAtAux [] (List.drop 7 l) with
    | some (before, url, g3, consumedFromS) => some (before, url, g3, 7 + consumedFromS)
    | none => none
  else none

/-- JavaScript path.replace of a single leading dot-slash. -/
def dropDotSlash (l : Str) : Str := if startsWithL "./".data l then List.drop 2 l else l

/-- First defined files[key] along the candidate key list. -/
def firstFound (files : FileSet) : List Str → Option Str
  | [] => none
  | k :: ks =>
    match files.get k with
    | some v => some v
    | none => firstFound files ks

/-- Callback of the script-src replace in buildFromUserIndexHtml: keep p5 or
external references, rewrite uploaded-marker files to the /file/ route,
inline every other resolved script (escaping closing script tags), keep the
match when the file is missing or empty. -/
def scriptTagCallback (files : FileSet) (matched before src after : Str) : Str :=
  if containsSub "cdn.jsdelivr.net".data src || containsSub "p5".data src ||
      startsWithL "http".data src || startsWithL "//".data src then
    matched
  else
    let normalizedSrc := dropSlashes (trimL src)
    let fileName := lastSegment normalizedSrc
    let possibleKeys : List Str :=
      [normalizedSrc, src, fileName, trimL src, '/' :: normalizedSrc,
        dropDotSlash normalizedSrc]
    match firstFound files possibleKeys with
    | some content =>
      if startsWithL uploadedFileMarker content then
        "<script".data ++ before ++ "src=\"/file/".data ++ normalizedSrc ++
          "\"".data ++ after ++ "></script>".data
      else if !content.isEmpty then
        "<script>".data ++ escapeScriptClose content ++ "</script>".data
      else matched
    | none => matched

/-- Fuel-driven global script-src replace scanner. -/
def replaceScriptTagsAux (files : FileSet) : Nat → Str → Str
  | 0, l => l
  | _ + 1, [] => []
  | fuel + 1, c :: cs =>
    match tryMatchScriptTag (c :: cs) with
    | some (before, url, g3, n) =>
      scriptTagCallback files ((c :: cs).take n) before url g3 ++
        replaceScriptTagsAux files fuel (List.drop n (c :: cs))
    | none => c :: replaceScriptTagsAux files fuel cs

/-- The global replace of script-src tags in buildFromUserIndexHtml. -/
def replaceScriptTags (files : FileSet) (l : Str) : Str :=
  replaceScriptTagsAux files l.length l

/-- JavaScript String.prototype.split on a single character; never empty. -/
def splitOnChar (ch : Char) : Str → List Str
  | [] => [[]]
  | c :: cs =>
    if c == ch then [] :: splitOnChar ch cs
    else
      match splitOnChar ch cs with
      | s :: ss => (c :: s) :: ss
      | [] => [[c]]

/-- The uploaded-file list built in buildFromUserIndexHtml: every logical
path whose content carries the uploaded marker, followed by its bare
filename when that differs. -/
def uploadedFilesOf (files : FileSet) : List Str :=
  files.foldl
    (fun acc pc =>
      if startsWithL uploadedFileMarker pc.2 then
        let acc1 := acc ++ [pc.1]
        let fileName := lastSegment pc.1
        if !fileName.isEmpty && fileName != pc.1 then acc1 ++ [fileName] else acc1
      else acc)
    []

/-- JavaScript object assignment m[k] = v: update in place, else append. -/
def objSet (m : List (Str × Str)) (k v : Str) : List (Str × Str) :=
  if (m.map Prod.fst).contains k then
    m.map (fun p => if p.1 == k then (k, v) else p)
  else m ++ [(k, v)]

/-- The asset mapping built in buildFromUserIndexHtml: for every uploaded
marker, the logical path and its bare filename are mapped to the served
filename parsed out of the marker. -/
def assetMappingOf (files : FileSet) : List (Str × Str) :=
  files.foldl
    (fun m pc =>
      if startsWithL uploadedFileMarker pc.2 then
        let parts := splitOnChar '#' pc.2
        if 3 ≤ parts.length then
          let serverPath := trimL (parts.getD 2 [])
          let fileName :=
            if startsWithL "assets/".data serverPath then List.drop 7 serverPath
            else lastSegment serverPath
          objSet (objSet m pc.1 fileName) (lastSegment pc.1) fileName
        else m
      else m)
    []

/-- JSON string-character escaping used when the uploaded-file list and the
asset mapping are serialised into the injected fragment. -/
def jsonEscChar (c : Char) : Str :=
  if c == '"' then "\\\"".data
  else if c == '\\' then "\\\\".data
  else if c == '\n' then "\\n".data
  else if c == '\r' then "\\r".data
  else if c == '\t' then "\\t".data
  else [c]

/-- JSON serialisation of one string. -/
def jsonStr (s : Str) : Str :=
  '"' :: s.foldr (fun c acc => jsonEscChar c ++ acc) ['"']

/-- JSON serialisation of a string array. -/
def jsonArr (xs : List Str) : Str :=
  '[' :: (joinSep ",".data (xs.map jsonStr) ++ [']'])

/-- JSON serialisation of a string-to-string object, in insertion order. -/
def jsonObj (m : List (Str × Str)) : Str :=
  '\x7b' :: (joinSep ",".data (m.map (fun p => jsonStr p.1 ++ ":".data ++ jsonStr p.2)) ++ ['\x7d'])

/-- The global replaces of angle brackets by unicode escapes applied to the
serialised JSON before interpolation. -/
def escAngles (l : Str) : Str :=
  l.foldr
    (fun c acc =>
      (if c == '<' then "\\u003c".data
       else if c == '>' then "\\u003e".data
       else [c]) ++ acc)
    []

/-- Asset-server fragment up to the uploaded-file list interpolation. -/
def assetServerScriptA : String := "<script>
(function() \x7b
  const uploadedFiles = "

/-- Asset-server fragment between its two interpolations. -/
def assetServerScriptB : String := ";
  const uploadedFilesSet = new Set(uploadedFiles);
  const assetMapping = "

/-- Asset-server fragment after the asset-mapping interpolation. -/
def assetServerScriptC : String := ";
  
  // Check if a path is one of our uploaded files
  function isUploadedFile(path) \x7b
    if (!path || typeof path !== \x27string\x27) return false;
    // Normalize path - remove leading slashes and /editor/ prefix
    // Use string methods instead of regex to avoid template literal issues
    let normalized = path;
    while (normalized.startsWith(\x27/\x27)) \x7b
      normalized = normalized.substring(1);
    \x7d
    if (normalized.startsWith(\x27editor/\x27)) \x7b
      normalized = normalized.substring(7);
    \x7d
    const fileName = normalized.split(\x27/\x27).pop();
    return uploadedFilesSet.has(normalized) || uploadedFilesSet.has(fileName) || uploadedFilesSet.has(path) || uploadedFilesSet.has(path.split(\x27/\x27).pop());
  \x7d
  
  // Normalize a path to use with /file/ endpoint
  // In development: use /api/file/ (proxied to Express)
  // In production: use /assets/ with actual filename from mapping
  function normalizeToFilePath(path) \x7b
    if (!path || typeof path !== \x27string\x27) return path;
    // Use string methods instead of regex to avoid template literal issues
    let normalized = path;
    while (normalized.startsWith(\x27/\x27)) \x7b
      normalized = normalized.substring(1);
    \x7d
    if (normalized.startsWith(\x27editor/\x27)) \x7b
      normalized = normalized.substring(7);
    \x7d
    
    // In development, proxy through /api/file/ to Express
    const isDev = window.location.hostname === \x27localhost\x27 || window.location.hostname === \x27127.0.0.1\x27;
    if (isDev) \x7b
      return \x27/api/file/\x27 + normalized;
    \x7d else \x7b
      // In production, use asset mapping to get actual filename
      // The mapping is injected directly into the iframe srcdoc
      const actualFileName = assetMapping[normalized] || assetMapping[normalized.split(\x27/\x27).pop()] || normalized;
      return \x27/assets/\x27 + actualFileName;
    \x7d
  \x7d
  
  // Override XMLHttpRequest to intercept all HTTP requests (p5 uses this for assets)
  const OriginalXHR = window.XMLHttpRequest;
  window.XMLHttpRequest = function() \x7b
    const xhr = new OriginalXHR();
    const originalOpen = xhr.open;
    xhr.open = function(method, url, ...args) \x7b
      if (typeof url === \x27string\x27 && !url.startsWith(\x27http\x27) && !url.startsWith(\x27data:\x27) && !url.startsWith(\x27/file/\x27)) \x7b
        if (isUploadedFile(url)) \x7b
          url = normalizeToFilePath(url);
        \x7d
      \x7d
      return originalOpen.call(this, method, url, ...args);
    \x7d;
    return xhr;
  \x7d;
  
  // Override fetch for other asset loading
  const originalFetch = window.fetch;
  window.fetch = function(input, init) \x7b
    if (typeof input === \x27string\x27 && !input.startsWith(\x27http\x27) && !input.startsWith(\x27data:\x27) && !input.startsWith(\x27/file/\x27)) \x7b
      if (isUploadedFile(input)) \x7b
        const filePath = normalizeToFilePath(input);
        return originalFetch.call(this, filePath, init);
      \x7d
    \x7d
    return originalFetch.apply(this, arguments);
  \x7d;
  
  // Override p5\x27s loadImage - this is the main way p5 loads images
  // Set up the override immediately and also when p5 loads
  function setupLoadImageOverride() \x7b
    if (typeof window.loadImage === \x27function\x27) \x7b
      const originalLoadImage = window.loadImage;
      window.loadImage = function(path, successCallback, failureCallback) \x7b
        if (isUploadedFile(path)) \x7b
          const filePath = normalizeToFilePath(path);
          return originalLoadImage.call(this, filePath, successCallback, failureCallback);
        \x7d
        return originalLoadImage.apply(this, arguments);
      \x7d;
      return true;
    \x7d
    return false;
  \x7d
  
  // Set up loadImage override immediately and also when p5 loads
  // This must happen BEFORE p5.js script runs
  window.__p5AssetOverride = setupLoadImageOverride;
  
  // Try to set up immediately (in case p5 is already loaded)
  setupLoadImageOverride();
  
  // Also intercept p5\x27s internal image loading by overriding Image constructor
  // This catches images created before loadImage override is set up
  const OriginalImage = window.Image;
  window.Image = function(...args) \x7b
    const img = new OriginalImage(...args);
    // Override src setter to intercept image paths
    let currentSrc = \x27\x27;
    Object.defineProperty(img, \x27src\x27, \x7b
      set: function(value) \x7b
        currentSrc = value;
        if (typeof value === \x27string\x27 && isUploadedFile(value)) \x7b
          value = normalizeToFilePath(value);
        \x7d
        img.setAttribute(\x27src\x27, value);
      \x7d,
      get: function() \x7b
        return currentSrc || img.getAttribute(\x27src\x27) || \x27\x27;
      \x7d,
      configurable: true,
      enumerable: true
    \x7d);
    return img;
  \x7d;
  
  // Copy Image static properties
  Object.setPrototypeOf(window.Image, OriginalImage);
  Object.setPrototypeOf(window.Image.prototype, OriginalImage.prototype);
  
  // Fix existing img elements immediately
  function fixExistingImages() \x7b
    document.querySelectorAll(\x27img\x27).forEach(function(img) \x7b
      const src = img.getAttribute(\x27src\x27) || img.src;
      if (src && isUploadedFile(src)) \x7b
        const filePath = normalizeToFilePath(src);
        if (img.src !== filePath && !img.src.includes(\x27/file/\x27)) \x7b
          img.src = filePath;
        \x7d
      \x7d
    \x7d);
  \x7d
  
  // Run immediately and also after DOM is ready
  fixExistingImages();
  if (document.readyState === \x27loading\x27) \x7b
    document.addEventListener(\x27DOMContentLoaded\x27, fixExistingImages);
  \x7d
  
  // Also watch for new images
  if (window.MutationObserver) \x7b
    const imgObserver = new MutationObserver(function(mutations) \x7b
      mutations.forEach(function(mutation) \x7b
        mutation.addedNodes.forEach(function(node) \x7b
          if (node.nodeType === 1) \x7b
            if (node.tagName === \x27IMG\x27) \x7b
              const src = node.getAttribute(\x27src\x27) || node.src;
              if (src && isUploadedFile(src)) \x7b
                node.src = normalizeToFilePath(src);
              \x7d
            \x7d
            const imgs = node.querySelectorAll && node.querySelectorAll(\x27img\x27);
            if (imgs) \x7b
              imgs.forEach(function(img) \x7b
                const src = img.getAttribute(\x27src\x27) || img.src;
                if (src && isUploadedFile(src)) \x7b
                  img.src = normalizeToFilePath(src);
                \x7d
              \x7d);
            \x7d
          \x7d
        \x7d);
      \x7d);
    \x7d);
    
    imgObserver.observe(document.body || document.documentElement, \x7b
      childList: true,
      subtree: true
    \x7d);
  \x7d
  
  // Run override immediately and also after p5 loads
  const runOverride = () => \x7b
    if (window.__p5AssetOverride) \x7b
      window.__p5AssetOverride();
    \x7d
    // Also try to set up loadImage override immediately
    setupLoadImageOverride();
  \x7d;
  
  // Run immediately
  runOverride();
  
  // Also run after DOM is ready
  if (document.readyState === \x27loading\x27) \x7b
    document.addEventListener(\x27DOMContentLoaded\x27, runOverride);
  \x7d else \x7b
    setTimeout(runOverride, 0);
  \x7d
  
  // Also try to run when p5 is loaded (check more frequently at first)
  const checkP5 = setInterval(() => \x7b
    if (window.loadImage && typeof window.loadImage === \x27function\x27) \x7b
      if (setupLoadImageOverride()) \x7b
        clearInterval(checkP5);
      \x7d
    \x7d
  \x7d, 10);
  
  setTimeout(() => clearInterval(checkP5), 5000);
\x7d)();
</script>"

/-- The asset-server fragment with the serialised uploaded-file list and
asset mapping interpolated. -/
def assetServerScript (files : FileSet) : Str :=
  assetServerScriptA.data ++ escAngles (jsonArr (uploadedFilesOf files)) ++
    assetServerScriptB.data ++ escAngles (jsonObj (assetMappingOf files)) ++
    assetServerScriptC.data

/-- The thumb-bridge / default-p5 injection before the body close tag: the
default rendering-library tag is added only when no p5 script text is
already present. -/
def injectThumbAndP5 (nodeId : Str) (html : Str) : Str :=
  if !containsSub "p5.min.js".data html && !containsSub "p5.js".data html then
    replaceFirstCI "</body>".data
      ("\n".data ++ buildThumbBridgeScript nodeId ++
        "\n<script src=\"https://cdn.jsdelivr.net/npm/p5@1.9.0/lib/p5.min.js\"></script>\n</body>".data)
      html
  else
    replaceFirstCI "</body>".data
      (buildThumbBridgeScript nodeId ++ "\n</body>".data) html

/-- buildFromUserIndexHtml of runner.js: the assembly pipeline applied to an
author-provided entry document.  The cssText and jsText arguments are
accepted and unused, exactly as in the source. -/
def buildFromUserIndexHtml (nodeId indexHtml cssText jsText : Str)
    (files : FileSet) (fitToFrame : Bool) : Str :=
  let h1 := ensureHead indexHtml
  let h2 := ensureBody h1
  let h3 := injectConsole h2
  let h4 :=
    if fitToFrame then
      addClassToTag (addClassToTag h3 "html".data "__p5fit".data)
        "body".data "__p5fit".data
    else h3
  let h5 := replaceCssLinks files h4
  let h6 := replaceScriptTags files h5
  let h7 :=
    if !(uploadedFilesOf files).isEmpty then
      replaceFirstCI "</head>".data (assetServerScript files ++ "</head>".data) h6
    else h6
  injectThumbAndP5 nodeId h7

/-- buildSrcdoc of runner.js: an author entry document is authoritative when
present and non-blank, otherwise the fallback shell is synthesized. -/
def buildSrcdoc (nodeId : Str) (files : FileSet) (fitToFrame : Bool) : Str :=
  let cssText := buildCss files fitToFrame
  let jsText := buildJs files
  match files.get "index.html".data with
  | some userHtml =>
    if !(trimL userHtml).isEmpty then
      buildFromUserIndexHtml nodeId userHtml cssText jsText files fitToFrame
    else buildFallbackShell nodeId cssText jsText
  | none => buildFallbackShell nodeId cssText jsText

/-- Structured context-to-host message of the thumbnail bridge. -/
inductive BridgeMsg
  | thumb (nodeId dataUrl : Str) (nonce : Option Str)
  | thumbErr (nodeId error : Str) (nonce : Option Str)
  | canvasDim (nodeId : Str) (width height : Nat)
deriving DecidableEq

/-- Is the message a reply to a thumbnail request (P5_THUMB or
P5_THUMB_ERR, as opposed to the dimension report)? -/
def BridgeMsg.isReply : BridgeMsg → Bool
  | .thumb _ _ _ => true
  | .thumbErr _ _ _ => true
  | .canvasDim _ _ _ => false

/-- Environment of one thumbnail request inside the isolated context:
whether findCanvas succeeds at each poll, whether the canvas is still there
inside the animation-frame callback and the dimension probe, and whether
toDataURL succeeds. -/
structure ThumbEnv where
  canvasAtTick : Nat → Bool
  canvasAtFrame : Bool
  encodeOk : Bool
  dataUrl : Str
  encodeError : Str
  canvasAtDim : Bool
  dimWidth : Nat
  dimHeight : Nat

/-- sendThumb of the thumbnail bridge: reply P5_THUMB on success, or
P5_THUMB_ERR when the canvas is missing or encoding throws. -/
def sendThumb (env : ThumbEnv) (nodeId : Str) (nonce : Option Str) : BridgeMsg :=
  if env.canvasAtFrame then
    if env.encodeOk then .thumb nodeId env.dataUrl nonce
    else .thumbErr nodeId env.encodeError nonce
  else .thumbErr nodeId "No canvas found".data nonce

/-- sendCanvasDimensions of the thumbnail bridge: a dimension report when a
canvas exists, nothing otherwise. -/
def sendCanvasDimensions (env : ThumbEnv) (nodeId : Str) : List BridgeMsg :=
  if env.canvasAtDim then [.canvasDim nodeId env.dimWidth env.dimHeight] else []

/-- The posts from the animation-frame callback once a canvas is found. -/
def frameMsgs (env : ThumbEnv) (nodeId : Str) (nonce : Option Str) : List BridgeMsg :=
  sendThumb env nodeId nonce :: sendCanvasDimensions env nodeId

/-- maxTries of sendThumbWhenReady. -/
def maxThumbTries : Nat := 20

/-- The setTimeout interval of the tick loop, in milliseconds. -/
def thumbPollIntervalMs : Nat := 50

/-- tick of sendThumbWhenReady: the messages posted and the number of
canvas polls performed.  Structural fuel; from the entry point the fuel
never runs out. -/
def sendThumbWhenReadyLoop (env : ThumbEnv) (nodeId : Str) (nonce : Option Str)
    (maxTries : Nat) : Nat → Nat → List BridgeMsg × Nat
  | tries, fuel =>
    if env.canvasAtTick tries then (frameMsgs env nodeId nonce, tries + 1)
    else if maxTries ≤ tries + 1 then
      ([.thumbErr nodeId "Canvas not created in time".data nonce], tries + 1)
    else
      match fuel with
      | 0 => ([], tries + 1)
      | fuel + 1 => sendThumbWhenReadyLoop env nodeId nonce maxTries (tries + 1) fuel

/-- sendThumbWhenReady of the thumbnail bridge: poll for the canvas from
attempt zero with the full retry budget. -/
def sendThumbWhenReady (env : ThumbEnv) (nodeId : Str) (nonce : Option Str) :
    List BridgeMsg × Nat :=
  sendThumbWhenReadyLoop env nodeId nonce maxThumbTries 0 maxThumbTries

/-- Host-to-context control message of the runner. -/
inductive HostMsg
  | reqThumb (nonce : Option Str)
  | p5Pause
  | p5Resume
deriving DecidableEq

/-- The isolated context window; postThrows models postMessage throwing. -/
structure ContentWindow where
  postThrows : Bool

/-- The iframe element owned by the runner; the content window may be
absent. -/
structure IframeEl where
  contentWindow : Option ContentWindow

/-- A raw postMessage call: delivers the message or throws. -/
def postMessageRaw (w : ContentWindow) (m : HostMsg) : Except Str (Option HostMsg) :=
  if w.postThrows then .error "postMessage failed".data else .ok (some m)

/-- The try/catch optional-chaining post used by the control operations of
createP5Runner: a missing window skips the call, a throwing one is caught;
the value is the delivered message, if any. -/
def postToIframe (el : IframeEl) (m : HostMsg) : Except Str (Option HostMsg) :=
  match el.contentWindow with
  | none => .ok none
  | some w =>
    match postMessageRaw w m with
    | .ok r => .ok r
    | .error _ => .ok none

/-- requestThumbnail of createP5Runner. -/
def requestThumbnail (el : IframeEl) (nonce : Option Str) : Except Str (Option HostMsg) :=
  postToIframe el (.reqThumb nonce)

/-- pause of createP5Runner. -/
def pause (el : IframeEl) : Except Str (Option HostMsg) := postToIframe el .p5Pause

/-- resume of createP5Runner. -/
def resume (el : IframeEl) : Except Str (Option HostMsg) := postToIframe el .p5Resume

/-- Whether a control post can reach the context without throwing. -/
def sendable (el : IframeEl) : Bool :=
  match el.contentWindow with
  | some w => !w.postThrows
  | none => false

/-- The shared path normalization of the injected asset layer: strip every
leading slash, then one editor/ path marker. -/
def assetNormalize (path : Str) : Str :=
  let n := dropSlashes path
  if startsWithL "editor/".data n then List.drop 7 n else n

/-- isUploadedFile of the injected asset layer: membership of the
normalized path, its bare filename, the untouched path, or its bare
filename, in the uploaded set. -/
def isUploadedFile (uploadedFiles : List Str) (path : Str) : Bool :=
  if path.isEmpty then false
  else
    let normalized := assetNormalize path
    let fileName := lastSegment normalized
    uploadedFiles.contains normalized || uploadedFiles.contains fileName ||
      uploadedFiles.contains path || uploadedFiles.contains (lastSegment path)

/-- normalizeToFilePath of the injected asset layer: the development proxy
route, or the production static route through the asset mapping. -/
def normalizeToFilePath (assetMapping : List (Str × Str)) (isDev : Bool)
    (path : Str) : Str :=
  if path.isEmpty then path
  else
    let normalized := assetNormalize path
    if isDev then "/api/file/".data ++ normalized
    else
      let actualFileName :=
        jsOrOpt (FileSet.get assetMapping normalized)
          (jsOrOpt (FileSet.get assetMapping (lastSegment normalized)) normalized)
      "/assets/".data ++ actualFileName

/-- The XMLHttpRequest / fetch interception step of the asset layer:
absolute, data: and /file/ urls pass through; an uploaded path is
rewritten; anything else passes through. -/
def xhrResolveStep (uploadedFiles : List Str) (assetMapping : List (Str × Str))
    (isDev : Bool) (url : Str) : Str :=
  if !startsWithL "http".data url && !startsWithL "data:".data url &&
      !startsWithL "/file/".data url then
    if isUploadedFile uploadedFiles url then
      normalizeToFilePath assetMapping isDev url
    else url
  else url

/-- Phase of a star tile (the TileState phase of the specification). -/
inductive TilePhase
  | Idle
  | Running
  | Capturing
deriving DecidableEq

/-- Canvas-dimension payload received by the tile; the css sizes are absent
when the bridge reports only raw pixel sizes. -/
structure CanvasDimEvent where
  width : ℚ
  height : ℚ
  cssWidth : Option ℚ
  cssHeight : Option ℚ

/-- Per-tile environment: the layout parameters read by the handlers and
the source node's current thumbnail path. -/
structure TileEnv where
  nodeSize : ℚ
  zoom : ℚ
  innerHeight : ℚ
  sourceThumbnailPath : Str

/-- Mutable closure state of renderStarTile. -/
structure TileState where
  hovering : Bool
  capturing : Bool
  mounted : Bool
  width : ℚ
  height : ℚ
  expanded : Bool
  shownImage : Option Str
  lastCanvasDim : Option CanvasDimEvent

/-- The base on-screen size of a star tile (nodeSize * 2). -/
def baseSize (env : TileEnv) : ℚ := env.nodeSize * 2

/-- getZoom of renderStarTile: the state zoom when positive, else 1. -/
def getZoom (env : TileEnv) : ℚ := if 0 < env.zoom then env.zoom else 1

/-- JavaScript Math.round on the nonnegative values used here. -/
def jsRound (q : ℚ) : ℚ := ⌊q + 1 / 2⌋

/-- getMinScreenPx of renderStarTile. -/
def getMinScreenPx (env : TileEnv) : ℚ := jsRound (env.innerHeight * (1 / 4))

/-- shouldExpandAtZoom of renderStarTile. -/
def shouldExpandAtZoom (env : TileEnv) : Bool :=
  decide (baseSize env * getZoom env < getMinScreenPx env)

/-- JavaScript Number(x) or-else y with zero falsy, over an optional field. -/
def jsNumOr (a : Option ℚ) (b : ℚ) : ℚ :=
  match a with
  | some v => if v = 0 then b else v
  | none => b

/-- normalizeCanvasDim of renderStarTile. -/
def normalizeCanvasDim (d : Option CanvasDimEvent) : Option (ℚ × ℚ) :=
  match d with
  | none => none
  | some d =>
    let cssWidth := jsNumOr d.cssWidth d.width
    let cssHeight := jsNumOr d.cssHeight d.height
    if cssWidth = 0 || cssHeight = 0 then none else some (cssWidth, cssHeight)

/-- applyHoverSize of renderStarTile: expand from the aspect ratio and the
minimum-screen-size policy, or reset to the base size.  The optional
runner.setScale call is absent from the runner and is a no-op. -/
def applyHoverSize (env : TileEnv) (canvasDim : Option CanvasDimEvent)
    (expand : Bool) (s : TileState) : TileState :=
  let minWorld := getMinScreenPx env / getZoom env
  let aspectRatio :=
    match normalizeCanvasDim canvasDim with
    | some (cw, ch) => cw / ch
    | none => 1
  if expand then
    if 1 ≤ aspectRatio then
      { s with width := minWorld * aspectRatio, height := minWorld, expanded := true }
    else
      { s with width := minWorld, height := minWorld / aspectRatio, expanded := true }
  else
    { s with width := baseSize env, height := baseSize env, expanded := false }

/-- collapseToTile of renderStarTile. -/
def collapseToTile (env : TileEnv) (s : TileState) : TileState :=
  { s with width := baseSize env, height := baseSize env, expanded := false }

/-- mountSketchFresh of renderStarTile: remove the thumbnail background and
create a fresh iframe/runner pair. -/
def mountSketchFresh (s : TileState) : TileState :=
  { s with shownImage := none, mounted := true }

/-- unmountSketchReset of renderStarTile: destroy the runner and remove the
iframe. -/
def unmountSketchReset (s : TileState) : TileState :=
  { s with mounted := false }

/-- Resolution of one capture attempt: the data url with which
requestThumbOnce resolved (null on explicit failure and on timeout), and
the path produced by the save callback (none models the callback
throwing). -/
structure CaptureResult where
  dataUrl : Option Str
  savedPath : Option Str

/-- The new thumbnail path obtained after the capture resolves (empty when
the capture failed, timed out, or saving failed). -/
def capturedPath (r : CaptureResult) : Str :=
  match r.dataUrl with
  | some d => if d.isEmpty then [] else jsOrOpt r.savedPath []
  | none => []

/-- setThumbBackground of renderStarTile. -/
def setThumbBackground (path : Str) (s : TileState) : TileState :=
  if !path.isEmpty then { s with shownImage := some path }
  else { s with shownImage := none }

/-- The mouseenter handler of renderStarTile, run to completion (the
single-threaded event model: a handler's awaited steps finish before the
next event's handler runs). -/
def mouseenter (env : TileEnv) (s : TileState) : TileState :=
  if s.hovering || s.capturing then s
  else
    let s1 := { s with hovering := true }
    let s2 := applyHoverSize env s1.lastCanvasDim (shouldExpandAtZoom env) s1
    if !s2.mounted && !s2.capturing then mountSketchFresh s2 else s2

/-- The canvas-dimension subscription of renderStarTile: remember the
payload and re-apply the hover size while still hovering and not
capturing.  The subscription exists only while a runner is mounted. -/
def onCanvasDimEvent (env : TileEnv) (d : CanvasDimEvent) (s : TileState) : TileState :=
  if s.mounted then
    let s1 := { s with lastCanvasDim := some d }
    if s1.hovering && !s1.capturing then
      applyHoverSize env s1.lastCanvasDim (shouldExpandAtZoom env) s1
    else s1
  else s

/-- The mouseleave handler of renderStarTile, run to completion: collapse
immediately, then pause, capture, save, unconditionally unmount, and show
the new (or previous) still. -/
def mouseleave (env : TileEnv) (r : CaptureResult) (s : TileState) : TileState :=
  if !s.hovering then s
  else
    let s1 := { s with hovering := false }
    let s2 := collapseToTile env s1
    if !s2.mounted || s2.capturing then s2
    else
      let s3 := { s2 with capturing := true }
      let newPath := capturedPath r
      let s4 := unmountSketchReset s3
      let s5 := setThumbBackground (jsOr newPath env.sourceThumbnailPath) s4
      { s5 with capturing := false }

/-- The specification phase of the closure state: a capture in flight is
Capturing, a mounted context is Running, otherwise Idle. -/
def tilePhase (s : TileState) : TilePhase :=
  if s.capturing then .Capturing else if s.mounted then .Running else .Idle

/-- Fallback-shell template A without its trailing style open tag. -/
def fallbackShellA1 : String := "
<!doctype html>
<html class=\"__p5runner\">
<head>
<meta charset=\"utf-8\" />
<meta name=\"viewport\" content=\"width=device-width, initial-scale=1.0\" />
"

/-- Fallback-shell template B without its leading style close tag. -/
def fallbackShellB1 : String := "
</head>
<body class=\"__p5runner\">
"

/-- Fallback-shell template C without its trailing script open tag. -/
def fallbackShellC1 : String := "
<script src=\"https://cdn.jsdelivr.net/npm/p5@1.9.0/lib/p5.min.js\"></script>
"

/-- Fallback-shell template D without its leading script close tag. -/
def fallbackShellD1 : String := "
</body>
</html>"

/-!
Theorems.  Generic lemmas about the scanning primitives first, then one
theorem (with witness or counterexample where required) per claim.
-/

theorem startsWithL_iff (p l : Str) : startsWithL p l = true ↔ p <+: l :=
  List.isPrefixOf_iff_prefix

theorem containsSub_iff (pat l : Str) : containsSub pat l = true ↔ pat <:+: l := by
  induction l with
  | nil =>
    simp [containsSub, startsWithL_iff, List.infix_nil, List.prefix_nil]
  | cons c cs ih =>
    simp [containsSub, Bool.or_eq_true, startsWithL_iff, ih, List.infix_cons_iff]

theorem containsSub_false_iff (pat l : Str) :
    containsSub pat l = false ↔ ¬pat <:+: l := by
  rw [← containsSub_iff]
  cases h : containsSub pat l <;> simp [h]

theorem prefix_append_cases {t x y : Str} (h : t <+: x ++ y) :
    t <+: x ∨ ∃ t2, t = x ++ t2 ∧ t2 <+: y := by
  induction x generalizing t with
  | nil => exact Or.inr ⟨t, rfl, by simpa using h⟩
  | cons c x' ih =>
    rw [List.cons_append, List.prefix_cons_iff] at h
    rcases h with h | ⟨t', ht', hpre⟩
    · subst h
      exact Or.inl (List.nil_prefix)
    · subst ht'
      rcases ih hpre with h1 | ⟨t2, ht2, hp2⟩
      · exact Or.inl (List.cons_prefix_cons.mpr ⟨rfl, h1⟩)
      · exact Or.inr ⟨t2, by simp [ht2], hp2⟩

theorem infix_append_cases {m x y : Str} (h : m <:+: x ++ y) :
    m <:+: x ∨ m <:+: y ∨
      ∃ i, 0 < i ∧ i < m.length ∧ List.take i m <:+ x ∧ List.drop i m <+: y := by
  induction x with
  | nil => exact Or.inr (Or.inl (by simpa using h))
  | cons c x' ih =>
    rw [List.cons_append, List.infix_cons_iff] at h
    rcases h with hp | h' 
    · rw [List.prefix_cons_iff] at hp
      rcases hp with hnil | ⟨t, hm, ht⟩
      · subst hnil
        exact Or.inl (List.nil_infix)
      · subst hm
        rcases prefix_append_cases ht with htx | ⟨t2, hteq, ht2⟩
        · exact Or.inl (List.IsPrefix.isInfix (List.cons_prefix_cons.mpr ⟨rfl, htx⟩))
        · subst hteq
          rcases eq_or_ne t2 [] with h0 | h0
          · subst h0
            exact Or.inl (by simp [List.infix_refl])
          · refine Or.inr (Or.inr ⟨x'.length + 1, by omega, ?_, ?_, ?_⟩)
            · have h1 : 0 < t2.length := List.length_pos.mpr h0
              simp
              omega
            · have h2 : List.take (x'.length + 1) (c :: (x' ++ t2)) = c :: x' := by
                rw [List.take_succ_cons, List.take_left]
              rw [h2]
            · have h3 : List.drop (x'.length + 1) (c :: (x' ++ t2)) = t2 := by
                rw [List.drop_succ_cons, List.drop_left]
              rw [h3]
              exact ht2
    · rcases ih h' with h1 | h2 | ⟨i, hi0, hil, hsuf, hpre⟩
      · exact Or.inl (h1.trans (List.infix_cons (List.infix_refl x')))
      · exact Or.inr (Or.inl h2)
      · exact Or.inr (Or.inr ⟨i, hi0, hil,
          hsuf.trans (List.suffix_cons c x'), hpre⟩)

theorem getLast?_of_suffix {s x : Str} (hs : s <:+ x) (hne : s ≠ []) :
    x.getLast? = s.getLast? := by
  obtain ⟨u, hu⟩ := hs
  subst hu
  rw [List.getLast?_append]
  cases h : s.getLast? with
  | none => exact absurd (List.getLast?_eq_none_iff.mp h) hne
  | some d => simp

theorem containsSub_append_false_of_last {m x y : Str}
    (hx : containsSub m x = false) (hy : containsSub m y = false)
    (hlast : ∀ d, x.getLast? = some d → d ∉ m) :
    containsSub m (x ++ y) = false := by
  rw [containsSub_false_iff] at hx hy ⊢
  intro h
  rcases infix_append_cases h with h1 | h2 | ⟨i, hi0, hil, hsuf, _⟩
  · exact hx h1
  · exact hy h2
  · have hne : List.take i m ≠ [] := by
      have : (List.take i m).length = i := by
        rw [List.length_take]
        omega
      intro hc
      rw [hc] at this
      simp at this
      omega
    obtain ⟨d, hd⟩ := Option.ne_none_iff_exists'.mp
      (fun hc => hne (List.getLast?_eq_none_iff.mp hc))
    have hxl : x.getLast? = some d := by
      rw [getLast?_of_suffix hsuf hne]
      exact hd
    have hdm : d ∈ m := by
      have h1 : d ∈ List.take i m := by
        obtain ⟨ys, hys⟩ := List.getLast?_eq_some_iff.mp hd
        rw [hys]
        simp
      exact List.take_subset i m h1
    exact hlast d hxl hdm

theorem containsSub_append_false_of_no_take {m x y : Str}
    (hx : containsSub m x = false) (hy : containsSub m y = false)
    (htake : ∀ i < m.length, 0 < i → ¬List.take i m <:+ x) :
    containsSub m (x ++ y) = false := by
  rw [containsSub_false_iff] at hx hy ⊢
  intro h
  rcases infix_append_cases h with h1 | h2 | ⟨i, hi0, hil, hsuf, _⟩
  · exact hx h1
  · exact hy h2
  · exact htake i hil hi0 hsuf

/-- Lowercasing, relating the case-insensitive scanners to the plain ones. -/
def lowerStr (l : Str) : Str := l.map Char.toLower

theorem startsCI_eq (p l : Str) : startsCI p l = startsWithL (lowerStr p) (lowerStr l) := by
  induction p generalizing l with
  | nil => simp [startsCI, startsWithL, lowerStr, List.isPrefixOf]
  | cons a as ih =>
    cases l with
    | nil => simp [startsCI, startsWithL, lowerStr, List.isPrefixOf]
    | cons b bs =>
      simp [startsCI, startsWithL, lowerStr, List.isPrefixOf, chEqCI, ih, startsWithL]

theorem containsCI_eq (p l : Str) : containsCI p l = containsSub (lowerStr p) (lowerStr l) := by
  induction l with
  | nil => simp [containsCI, containsSub, startsCI_eq, lowerStr]
  | cons c cs ih =>
    simp only [containsCI, containsSub, startsCI_eq, ih, lowerStr, List.map_cons]

/-- Claim C10: for every controller / iframe state -- no content window, or
a content window whose postMessage throws -- the control operations
requestThumbnail, pause and resume return normally (never a thrown error);
the outgoing message is delivered exactly when the window exists and does
not throw, and is silently dropped otherwise. -/
theorem controlMessages_never_throw (el : IframeEl) (nonce : Option Str) :
    requestThumbnail el nonce = .ok (if sendable el then some (.reqThumb nonce) else none) ∧
    pause el = .ok (if sendable el then some .p5Pause else none) ∧
    resume el = .ok (if sendable el then some .p5Resume else none) := by
  obtain ⟨cw⟩ := el
  cases cw with
  | none => simp [requestThumbnail, pause, resume, postToIframe, sendable]
  | some w =>
    cases hw : w.postThrows <;>
      simp [requestThumbnail, pause, resume, postToIframe, postMessageRaw, sendable, hw]

theorem frameMsgs_countP (env : ThumbEnv) (nodeId : Str) (nonce : Option Str) :
    (frameMsgs env nodeId nonce).countP (·.isReply) = 1 := by
  cases hc : env.canvasAtFrame <;> cases he : env.encodeOk <;> cases hd : env.canvasAtDim <;>
    simp [frameMsgs, sendThumb, sendCanvasDimensions, hc, he, hd, BridgeMsg.isReply,
      List.countP_cons]

theorem sendThumbWhenReadyLoop_spec (env : ThumbEnv) (nodeId : Str) (nonce : Option Str)
    (maxTries : Nat) :
    ∀ fuel tries, maxTries ≤ tries + 1 + fuel → tries < maxTries →
      ((sendThumbWhenReadyLoop env nodeId nonce maxTries tries fuel).1.countP (·.isReply) = 1) ∧
      (sendThumbWhenReadyLoop env nodeId nonce maxTries tries fuel).2 ≤ maxTries ∧
      ((∀ n, tries ≤ n → n < maxTries → env.canvasAtTick n = false) →
        sendThumbWhenReadyLoop env nodeId nonce maxTries tries fuel =
          ([.thumbErr nodeId "Canvas not created in time".data nonce], maxTries)) := by
  intro fuel
  induction fuel with
  | zero =>
    intro tries h1 h2
    have heq : tries + 1 = maxTries := by omega
    by_cases hc : env.canvasAtTick tries
    · refine ⟨?_, ?_, ?_⟩
      · simp [sendThumbWhenReadyLoop, hc, frameMsgs_countP]
      · simp [sendThumbWhenReadyLoop, hc]
        omega
      · intro hall
        exact absurd hc (by simp [hall tries le_rfl h2])
    · refine ⟨?_, ?_, ?_⟩
      · simp [sendThumbWhenReadyLoop, hc, heq, BridgeMsg.isReply, List.countP_cons]
      · simp [sendThumbWhenReadyLoop, hc, heq]
      · intro _
        simp [sendThumbWhenReadyLoop, hc, heq]
  | succ fuel ih =>
    intro tries h1 h2
    by_cases hc : env.canvasAtTick tries
    · refine ⟨?_, ?_, ?_⟩
      · simp [sendThumbWhenReadyLoop, hc, frameMsgs_countP]
      · simp [sendThumbWhenReadyLoop, hc]
        omega
      · intro hall
        exact absurd hc (by simp [hall tries le_rfl h2])
    · by_cases hend : maxTries ≤ tries + 1
      · refine ⟨?_, ?_, ?_⟩
        · simp [sendThumbWhenReadyLoop, hc, hend, BridgeMsg.isReply, List.countP_cons]
        · simp [sendThumbWhenReadyLoop, hc, hend]
          omega
        · intro _
          have heq : tries + 1 = maxTries := by omega
          simp [sendThumbWhenReadyLoop, hc, hend, heq]
      · have h2' : tries + 1 < maxTries := by omega
        have h1' : maxTries ≤ tries + 1 + 1 + fuel := by omega
        have hrec := ih (tries + 1) h1' h2'
        refine ⟨?_, ?_, ?_⟩
        · simpa [sendThumbWhenReadyLoop, hc, hend] using hrec.1
        · simpa [sendThumbWhenReadyLoop, hc, hend] using hrec.2.1
        · intro hall
          have := hrec.2.2 (fun n hn1 hn2 => hall n (by omega) hn2)
          simpa [sendThumbWhenReadyLoop, hc, hend] using this

/-- Claim C2: every RequestThumbnail handled by sendThumbWhenReady posts
exactly one reply (P5_THUMB or P5_THUMB_ERR, never zero and never more than
one) whatever the canvas/encoding environment does; the number of canvas
polls never exceeds the budget of 20 (spaced 50ms apart), and when no
drawing surface ever appears within the budget the single reply is the
P5_THUMB_ERR timeout message, after exactly 20 polls. -/
theorem thumbnailRequest_exactly_one_reply (env : ThumbEnv) (nodeId : Str)
    (nonce : Option Str) :
    ((sendThumbWhenReady env nodeId nonce).1.countP (·.isReply) = 1) ∧
    (sendThumbWhenReady env nodeId nonce).2 ≤ maxThumbTries ∧
    maxThumbTries = 20 ∧ thumbPollIntervalMs = 50 ∧
    ((∀ n, n < maxThumbTries → env.canvasAtTick n = false) →
      sendThumbWhenReady env nodeId nonce =
        ([.thumbErr nodeId "Canvas not created in time".data nonce], maxThumbTries)) := by
  have h := sendThumbWhenReadyLoop_spec env nodeId nonce maxThumbTries maxThumbTries 0
    (by simp) (by simp [maxThumbTries])
  exact ⟨h.1, h.2.1, rfl, rfl, fun hc => h.2.2 (fun n _ hn => hc n hn)⟩

/-- Witness for C2 at a concrete environment without a drawing surface. -/
theorem thumbnailRequest_exactly_one_reply_witness :
    ((sendThumbWhenReady ⟨fun _ => false, false, true, [], [], false, 0, 0⟩
        "n1".data none).1.countP (·.isReply) = 1) ∧
    sendThumbWhenReady ⟨fun _ => false, false, true, [], [], false, 0, 0⟩ "n1".data none =
      ([.thumbErr "n1".data "Canvas not created in time".data none], maxThumbTries) := by
  have h := thumbnailRequest_exactly_one_reply
    ⟨fun _ => false, false, true, [], [], false, 0, 0⟩ "n1".data none
  exact ⟨h.1, h.2.2.2.2 (fun n _ => rfl)⟩

theorem applyHoverSize_hovering (env : TileEnv) (d : Option CanvasDimEvent) (e : Bool)
    (s : TileState) : (applyHoverSize env d e s).hovering = s.hovering := by
  unfold applyHoverSize
  dsimp only
  repeat' split
  all_goals rfl

theorem applyHoverSize_capturing (env : TileEnv) (d : Option CanvasDimEvent) (e : Bool)
    (s : TileState) : (applyHoverSize env d e s).capturing = s.capturing := by
  unfold applyHoverSize
  dsimp only
  repeat' split
  all_goals rfl

theorem applyHoverSize_mounted (env : TileEnv) (d : Option CanvasDimEvent) (e : Bool)
    (s : TileState) : (applyHoverSize env d e s).mounted = s.mounted := by
  unfold applyHoverSize
  dsimp only
  repeat' split
  all_goals rfl

theorem onCanvasDimEvent_flags (env : TileEnv) (d : CanvasDimEvent) (s : TileState) :
    (onCanvasDimEvent env d s).hovering = s.hovering ∧
    (onCanvasDimEvent env d s).capturing = s.capturing ∧
    (onCanvasDimEvent env d s).mounted = s.mounted := by
  unfold onCanvasDimEvent
  split
  · dsimp only
    split
    · exact ⟨applyHoverSize_hovering .., applyHoverSize_capturing ..,
        applyHoverSize_mounted ..⟩
    · exact ⟨rfl, rfl, rfl⟩
  · exact ⟨rfl, rfl, rfl⟩

theorem dimEventsFold_flags (env : TileEnv) (dims : List CanvasDimEvent) :
    ∀ s : TileState,
      ((dims.foldl (fun st d => onCanvasDimEvent env d st) s).hovering = s.hovering ∧
       (dims.foldl (fun st d => onCanvasDimEvent env d st) s).capturing = s.capturing ∧
       (dims.foldl (fun st d => onCanvasDimEvent env d st) s).mounted = s.mounted) := by
  induction dims with
  | nil => intro s; simp
  | cons d ds ih =>
    intro s
    have h1 := onCanvasDimEvent_flags env d s
    have h2 := ih (onCanvasDimEvent env d s)
    simp only [List.foldl_cons]
    exact ⟨h2.1.trans h1.1, (h2.2.1.trans h1.2.1), h2.2.2.trans h1.2.2⟩

theorem mouseenter_of_idle (env : TileEnv) (s : TileState)
    (h1 : s.hovering = false) (h2 : s.capturing = false) (h3 : s.mounted = false) :
    (mouseenter env s).hovering = true ∧
    (mouseenter env s).capturing = false ∧
    (mouseenter env s).mounted = true := by
  unfold mouseenter
  rw [if_neg (by simp [h1, h2])]
  dsimp only
  rw [if_pos (by simp [applyHoverSize_capturing, applyHoverSize_mounted, h2, h3])]
  refine ⟨?_, ?_, ?_⟩
  · simp [mountSketchFresh, applyHoverSize_hovering]
  · simp [mountSketchFresh, applyHoverSize_capturing, h2]
  · simp [mountSketchFresh]

theorem mouseleave_capture (env : TileEnv) (r : CaptureResult) (s : TileState)
    (hh : s.hovering = true) (hc : s.capturing = false) (hm : s.mounted = true) :
    (mouseleave env r s).width = baseSize env ∧
    (mouseleave env r s).height = baseSize env ∧
    (mouseleave env r s).expanded = false ∧
    (mouseleave env r s).mounted = false ∧
    (mouseleave env r s).capturing = false := by
  unfold mouseleave
  rw [hh]
  simp only [Bool.not_true, if_neg (by simp : ¬(false = true))]
  rw [if_neg]
  · unfold setThumbBackground unmountSketchReset collapseToTile
    split <;> simp
  · simp [collapseToTile, hc, hm]

/-- Claim C4: a full hover cycle from an idle tile -- pointer enter, any
sequence of canvas-dimension reports, pointer leave -- returns the tile to
its base on-screen size and the Idle phase, with the mounted context
destroyed after the capture resolves, whatever the capture outcome
(success, failure or timeout) and whatever the save callback does. -/
theorem hoverCycle_returns_idle (env : TileEnv) (s : TileState)
    (dims : List CanvasDimEvent) (r : CaptureResult)
    (h1 : s.hovering = false) (h2 : s.capturing = false) (h3 : s.mounted = false) :
    (mouseleave env r (dims.foldl (fun st d => onCanvasDimEvent env d st)
        (mouseenter env s))).width = baseSize env ∧
    (mouseleave env r (dims.foldl (fun st d => onCanvasDimEvent env d st)
        (mouseenter env s))).height = baseSize env ∧
    (mouseleave env r (dims.foldl (fun st d => onCanvasDimEvent env d st)
        (mouseenter env s))).expanded = false ∧
    (mouseleave env r (dims.foldl (fun st d => onCanvasDimEvent env d st)
        (mouseenter env s))).mounted = false ∧
    tilePhase (mouseleave env r (dims.foldl (fun st d => onCanvasDimEvent env d st)
        (mouseenter env s))) = TilePhase.Idle := by
  have he := mouseenter_of_idle env s h1 h2 h3
  have hd := dimEventsFold_flags env dims (mouseenter env s)
  have hl := mouseleave_capture env r
    (dims.foldl (fun st d => onCanvasDimEvent env d st) (mouseenter env s))
    (hd.1.trans he.1) (hd.2.1.trans he.2.1) (hd.2.2.trans he.2.2)
  refine ⟨hl.1, hl.2.1, hl.2.2.1, hl.2.2.2.1, ?_⟩
  unfold tilePhase
  rw [hl.2.2.2.2, hl.2.2.2.1]
  simp

/-- Witness for C4 at a concrete tile, environment and capture outcome. -/
theorem hoverCycle_returns_idle_witness :
    (mouseleave ⟨10, 1, 800, "thumb.png".data⟩ ⟨none, none⟩
        (List.foldl (fun st d => onCanvasDimEvent ⟨10, 1, 800, "thumb.png".data⟩ d st)
          (mouseenter ⟨10, 1, 800, "thumb.png".data⟩
            ⟨false, false, false, 20, 20, false, none, none⟩) [])).width =
      baseSize ⟨10, 1, 800, "thumb.png".data⟩ ∧
    (mouseleave ⟨10, 1, 800, "thumb.png".data⟩ ⟨none, none⟩
        (List.foldl (fun st d => onCanvasDimEvent ⟨10, 1, 800, "thumb.png".data⟩ d st)
          (mouseenter ⟨10, 1, 800, "thumb.png".data⟩
            ⟨false, false, false, 20, 20, false, none, none⟩) [])).height =
      baseSize ⟨10, 1, 800, "thumb.png".data⟩ ∧
    (mouseleave ⟨10, 1, 800, "thumb.png".data⟩ ⟨none, none⟩
        (List.foldl (fun st d => onCanvasDimEvent ⟨10, 1, 800, "thumb.png".data⟩ d st)
          (mouseenter ⟨10, 1, 800, "thumb.png".data⟩
            ⟨false, false, false, 20, 20, false, none, none⟩) [])).expanded = false ∧
    (mouseleave ⟨10, 1, 800, "thumb.png".data⟩ ⟨none, none⟩
        (List.foldl (fun st d => onCanvasDimEvent ⟨10, 1, 800, "thumb.png".data⟩ d st)
          (mouseenter ⟨10, 1, 800, "thumb.png".data⟩
            ⟨false, false, false, 20, 20, false, none, none⟩) [])).mounted = false ∧
    tilePhase (mouseleave ⟨10, 1, 800, "thumb.png".data⟩ ⟨none, none⟩
        (List.foldl (fun st d => onCanvasDimEvent ⟨10, 1, 800, "thumb.png".data⟩ d st)
          (mouseenter ⟨10, 1, 800, "thumb.png".data⟩
            ⟨false, false, false, 20, 20, false, none, none⟩) [])) = TilePhase.Idle :=
  hoverCycle_returns_idle ⟨10, 1, 800, "thumb.png".data⟩
    ⟨false, false, false, 20, 20, false, none, none⟩ [] ⟨none, none⟩ rfl rfl rfl

/-- Claim C3 (code bug evaluation): with one uploaded asset img/cat.png
stored as assets/cat123.png, the development resolution step rewrites the
logical path to /api/file/img/cat.png, but applying the resolution step to
that already-resolved retrieval path rewrites it AGAIN (its bare filename
still matches the uploaded set, and the startsWith guard checks /file/
rather than /api/file/), yielding /api/file/api/file/img/cat.png instead of
returning it unchanged. -/
theorem assetResolution_dev_route_not_idempotent :
    uploadedFilesOf [("img/cat.png".data, "#UPLOADED_FILE#assets/cat123.png#".data)] =
      ["img/cat.png".data, "cat.png".data] ∧
    assetMappingOf [("img/cat.png".data, "#UPLOADED_FILE#assets/cat123.png#".data)] =
      [("img/cat.png".data, "cat123.png".data), ("cat.png".data, "cat123.png".data)] ∧
    xhrResolveStep ["img/cat.png".data, "cat.png".data]
      [("img/cat.png".data, "cat123.png".data), ("cat.png".data, "cat123.png".data)]
      true "img/cat.png".data = "/api/file/img/cat.png".data ∧
    xhrResolveStep ["img/cat.png".data, "cat.png".data]
      [("img/cat.png".data, "cat123.png".data), ("cat.png".data, "cat123.png".data)]
      true "/api/file/img/cat.png".data = "/api/file/api/file/img/cat.png".data ∧
    "/api/file/api/file/img/cat.png".data ≠ "/api/file/img/cat.png".data := by
  decide

theorem cons_filter_perm {l : List Str} {a : Str} (h : a ∈ l) (hn : l.Nodup) :
    (a :: l.filter (fun p => p != a)).Perm l := by
  induction l with
  | nil => cases h
  | cons b bs ih =>
    rcases List.mem_cons.mp h with heq | hb
    · subst heq
      have hnotin : a ∉ bs := (List.nodup_cons.mp hn).1
      have hfil : List.filter (fun p => p != a) (a :: bs) = bs := by
        rw [List.filter_cons_of_neg (by simp)]
        exact List.filter_eq_self.mpr
          (fun x hx => by simp [bne_iff_ne]; exact fun heq => hnotin (heq ▸ hx))
      rw [hfil]
    · have hn' := (List.nodup_cons.mp hn).2
      have hba : b ≠ a := fun heq => (List.nodup_cons.mp hn).1 (heq ▸ hb)
      rw [List.filter_cons_of_pos (by simp [bne_iff_ne]; exact hba)]
      exact (List.Perm.swap b a _).trans ((ih hb hn').cons b)

/-- Claim C9: in the synthesized fallback document's concatenated inline
script, a file named sketch.js, when present among the js files, is ordered
last, and the relative order of the other js files is preserved; with
unique keys the ordering is a permutation of the js paths. -/
theorem sketchJs_ordered_last (files : FileSet)
    (hmem : sketchJsName ∈ jsPaths files) :
    (orderedJsPaths files).getLast? = some sketchJsName ∧
    (orderedJsPaths files).filter (fun p => p != sketchJsName) =
      (jsPaths files).filter (fun p => p != sketchJsName) ∧
    ((jsPaths files).Nodup → (orderedJsPaths files).Perm (jsPaths files)) ∧
    buildJs files = joinSep "\n".data
      ((orderedJsPaths files).map
        (fun p => "// ".data ++ p ++ "\n".data ++ jsOrOpt (FileSet.get files p) [])) := by
  have hcon : (jsPaths files).contains sketchJsName = true := by
    simpa using hmem
  have hord : orderedJsPaths files =
      (jsPaths files).filter (fun p => p != sketchJsName) ++ [sketchJsName] := by
    unfold orderedJsPaths
    dsimp only
    rw [if_pos hcon]
  refine ⟨?_, ?_, ?_, rfl⟩
  · rw [hord, List.getLast?_concat]
  · rw [hord, List.filter_append, List.filter_filter]
    simp
  · intro hnodup
    rw [hord]
    refine (List.perm_append_singleton sketchJsName _).trans ?_
    exact cons_filter_perm hmem hnodup

/-- Witness for C9 at a concrete three-script file set. -/
theorem sketchJs_ordered_last_witness :
    (orderedJsPaths [("a.js".data, "A".data), ("sketch.js".data, "S".data),
        ("b.js".data, "B".data)]).getLast? = some sketchJsName ∧
    (orderedJsPaths [("a.js".data, "A".data), ("sketch.js".data, "S".data),
        ("b.js".data, "B".data)]).filter (fun p => p != sketchJsName) =
      (jsPaths [("a.js".data, "A".data), ("sketch.js".data, "S".data),
        ("b.js".data, "B".data)]).filter (fun p => p != sketchJsName) ∧
    ((jsPaths [("a.js".data, "A".data), ("sketch.js".data, "S".data),
        ("b.js".data, "B".data)]).Nodup →
      (orderedJsPaths [("a.js".data, "A".data), ("sketch.js".data, "S".data),
        ("b.js".data, "B".data)]).Perm
        (jsPaths [("a.js".data, "A".data), ("sketch.js".data, "S".data),
          ("b.js".data, "B".data)])) ∧
    buildJs [("a.js".data, "A".data), ("sketch.js".data, "S".data),
        ("b.js".data, "B".data)] = joinSep "\n".data
      ((orderedJsPaths [("a.js".data, "A".data), ("sketch.js".data, "S".data),
          ("b.js".data, "B".data)]).map
        (fun p => "// ".data ++ p ++ "\n".data ++
          jsOrOpt (FileSet.get [("a.js".data, "A".data), ("sketch.js".data, "S".data),
            ("b.js".data, "B".data)] p) [])) :=
  sketchJs_ordered_last
    [("a.js".data, "A".data), ("sketch.js".data, "S".data), ("b.js".data, "B".data)]
    (by decide)

theorem fallbackShellA_split : fallbackShellA.data = fallbackShellA1.data ++ "<style>".data := by
  decide

theorem fallbackShellB_split : fallbackShellB.data = "</style>".data ++ fallbackShellB1.data := by
  decide

theorem fallbackShellC_split : fallbackShellC.data = fallbackShellC1.data ++ "<script>".data := by
  decide

theorem fallbackShellD_split : fallbackShellD.data = "</script>".data ++ fallbackShellD1.data := by
  decide

theorem buildFallbackShell_decomp (nodeId cssText jsText : Str) :
    buildFallbackShell nodeId cssText jsText =
      fallbackShellA1.data ++ ("<style>".data ++ cssText ++ "</style>".data ++
        (fallbackShellB1.data ++ (buildThumbBridgeScript nodeId ++
          (fallbackShellC1.data ++ ("<script>".data ++
            (if jsText.isEmpty then [] else escapeScriptClose jsText) ++
            "</script>".data ++ fallbackShellD1.data))))) := by
  unfold buildFallbackShell
  dsimp only
  rw [fallbackShellA_split, fallbackShellB_split, fallbackShellC_split, fallbackShellD_split]
  simp [List.append_assoc]

theorem infix_append_right (x : Str) {m y : Str} (h : m <:+: y) : m <:+: x ++ y := by
  obtain ⟨s, t, hst⟩ := h
  exact ⟨x ++ s, t, by rw [← hst]; simp⟩

theorem last_notin (c : Char) {x m : Str} (hl : x.getLast? = some c) (hc : c ∉ m) :
    ∀ d, x.getLast? = some d → d ∉ m := by
  intro d hd
  rw [hl] at hd
  cases hd
  exact hc

/-- Claim C1 (amended): for every file set without an entry HTML document,
the assembled document is the synthesized fallback shell, which embeds the
ThumbnailBridge fragment, the default rendering-library reference, the
concatenated inline stylesheet and the concatenated (escaped) inline
script -- but, unlike what the original claim states, not the ConsoleBridge
fragment (see the counterexample theorem). -/
theorem fallback_embeds_bridges (nodeId : Str) (files : FileSet) (fit : Bool)
    (hnone : ∀ h, files.get "index.html".data = some h → trimL h = []) :
    buildSrcdoc nodeId files fit =
      buildFallbackShell nodeId (buildCss files fit) (buildJs files) ∧
    buildThumbBridgeScript nodeId <:+: buildSrcdoc nodeId files fit ∧
    defaultP5ScriptTag.data <:+: buildSrcdoc nodeId files fit ∧
    ("<style>".data ++ buildCss files fit ++ "</style>".data) <:+:
      buildSrcdoc nodeId files fit ∧
    ("<script>".data ++
        (if (buildJs files).isEmpty then [] else escapeScriptClose (buildJs files)) ++
        "</script>".data) <:+: buildSrcdoc nodeId files fit := by
  have hfb : buildSrcdoc nodeId files fit =
      buildFallbackShell nodeId (buildCss files fit) (buildJs files) := by
    unfold buildSrcdoc
    dsimp only
    cases hg : files.get "index.html".data with
    | none => rfl
    | some h =>
      dsimp only
      rw [hnone h hg]
      simp
  have hd := buildFallbackShell_decomp nodeId (buildCss files fit) (buildJs files)
  refine ⟨hfb, ?_, ?_, ?_, ?_⟩ <;> rw [hfb, hd]
  · exact infix_append_right _ (infix_append_right _ (infix_append_right _
      (List.IsPrefix.isInfix (List.prefix_append _ _))))
  · refine ((containsSub_iff _ _).mp (by decide) :
      defaultP5ScriptTag.data <:+: fallbackShellC1.data).trans ?_
    exact infix_append_right _ (infix_append_right _ (infix_append_right _
      (infix_append_right _ (List.IsPrefix.isInfix (List.prefix_append _ _)))))
  · exact infix_append_right _ (List.IsPrefix.isInfix (List.prefix_append _ _))
  · exact infix_append_right _ (infix_append_right _ (infix_append_right _
      (infix_append_right _ (infix_append_right _
        (List.IsPrefix.isInfix (List.prefix_append _ _))))))

/-- Witness for the amended C1 at the concrete one-sketch file set. -/
theorem fallback_embeds_bridges_witness :
    buildSrcdoc "n1".data [("sketch.js".data, "createCanvas(10,10)".data)] false =
      buildFallbackShell "n1".data
        (buildCss [("sketch.js".data, "createCanvas(10,10)".data)] false)
        (buildJs [("sketch.js".data, "createCanvas(10,10)".data)]) ∧
    buildThumbBridgeScript "n1".data <:+:
      buildSrcdoc "n1".data [("sketch.js".data, "createCanvas(10,10)".data)] false ∧
    defaultP5ScriptTag.data <:+:
      buildSrcdoc "n1".data [("sketch.js".data, "createCanvas(10,10)".data)] false ∧
    ("<style>".data ++ buildCss [("sketch.js".data, "createCanvas(10,10)".data)] false ++
        "</style>".data) <:+:
      buildSrcdoc "n1".data [("sketch.js".data, "createCanvas(10,10)".data)] false ∧
    ("<script>".data ++
        (if (buildJs [("sketch.js".data, "createCanvas(10,10)".data)]).isEmpty then []
         else escapeScriptClose (buildJs [("sketch.js".data, "createCanvas(10,10)".data)])) ++
        "</script>".data) <:+:
      buildSrcdoc "n1".data [("sketch.js".data, "createCanvas(10,10)".data)] false :=
  fallback_embeds_bridges "n1".data [("sketch.js".data, "createCanvas(10,10)".data)] false
    (fun _ hh => Option.noConfusion hh)

/-- Counterexample to claim C1 as stated: for the file set containing only
sketch.js (no entry HTML document), the assembled fallback document does
NOT embed the ConsoleBridge fragment. -/
theorem fallback_omits_consoleBridge :
    ¬(buildConsoleInterceptionScript.data <:+:
        buildSrcdoc "n1".data [("sketch.js".data, "createCanvas(10,10)".data)] false) := by
  intro h
  have hmark : "sendConsole".data <:+: buildConsoleInterceptionScript.data :=
    (containsSub_iff _ _).mp (by decide)
  have hin := hmark.trans h
  have heq : buildSrcdoc "n1".data [("sketch.js".data, "createCanvas(10,10)".data)] false =
      fallbackShellA1.data ++ ("<style>".data ++ (runnerBaseCss.data ++ ("</style>".data ++
        (fallbackShellB1.data ++ (thumbBridgePartA.data ++ ("n1".data ++
          (thumbBridgePartB.data ++ ("n1".data ++ (thumbBridgePartC.data ++ ("n1".data ++
            (thumbBridgePartD.data ++ ("n1".data ++ (thumbBridgePartE.data ++ ("n1".data ++
              (thumbBridgePartF.data ++ (fallbackShellC1.data ++ ("<script>".data ++
                ("// sketch.js\ncreateCanvas(10,10)".data ++ ("</script>".data ++
                  fallbackShellD1.data))))))))))))))))))) := by
    have hfb : buildSrcdoc "n1".data [("sketch.js".data, "createCanvas(10,10)".data)] false =
        buildFallbackShell "n1".data
          (buildCss [("sketch.js".data, "createCanvas(10,10)".data)] false)
          (buildJs [("sketch.js".data, "createCanvas(10,10)".data)]) := rfl
    have hcss : buildCss [("sketch.js".data, "createCanvas(10,10)".data)] false =
        runnerBaseCss.data := rfl
    have hjs : (if (buildJs [("sketch.js".data, "createCanvas(10,10)".data)]).isEmpty then []
        else escapeScriptClose (buildJs [("sketch.js".data, "createCanvas(10,10)".data)])) =
        "// sketch.js\ncreateCanvas(10,10)".data := by decide
    rw [hfb, buildFallbackShell_decomp, hcss, hjs]
    simp [buildThumbBridgeScript, List.append_assoc]
  rw [heq] at hin
  have hco : containsSub "sendConsole".data
      (fallbackShellA1.data ++ ("<style>".data ++ (runnerBaseCss.data ++ ("</style>".data ++
        (fallbackShellB1.data ++ (thumbBridgePartA.data ++ ("n1".data ++
          (thumbBridgePartB.data ++ ("n1".data ++ (thumbBridgePartC.data ++ ("n1".data ++
            (thumbBridgePartD.data ++ ("n1".data ++ (thumbBridgePartE.data ++ ("n1".data ++
              (thumbBridgePartF.data ++ (fallbackShellC1.data ++ ("<script>".data ++
                ("// sketch.js\ncreateCanvas(10,10)".data ++ ("</script>".data ++
                  fallbackShellD1.data))))))))))))))))))))
      = false := by
    refine containsSub_append_false_of_last (by decide) ?_ (last_notin '\n' (by decide) (by decide))
    refine containsSub_append_false_of_last (by decide) ?_ (last_notin '>' (by decide) (by decide))
    refine containsSub_append_false_of_last (by decide) ?_ (last_notin '\n' (by decide) (by decide))
    refine containsSub_append_false_of_last (by decide) ?_ (last_notin '>' (by decide) (by decide))
    refine containsSub_append_false_of_last (by decide) ?_ (last_notin '\n' (by decide) (by decide))
    refine containsSub_append_false_of_last (by decide) ?_ (last_notin '"' (by decide) (by decide))
    refine containsSub_append_false_of_last (by decide) ?_ (last_notin '1' (by decide) (by decide))
    refine containsSub_append_false_of_last (by decide) ?_ (last_notin '"' (by decide) (by decide))
    refine containsSub_append_false_of_last (by decide) ?_ (last_notin '1' (by decide) (by decide))
    refine containsSub_append_false_of_last (by decide) ?_ (last_notin '"' (by decide) (by decide))
    refine containsSub_append_false_of_last (by decide) ?_ (last_notin '1' (by decide) (by decide))
    refine containsSub_append_false_of_last (by decide) ?_ (last_notin '"' (by decide) (by decide))
    refine containsSub_append_false_of_last (by decide) ?_ (last_notin '1' (by decide) (by decide))
    refine containsSub_append_false_of_last (by decide) ?_ (last_notin '"' (by decide) (by decide))
    refine containsSub_append_false_of_last (by decide) ?_ (last_notin '1' (by decide) (by decide))
    refine containsSub_append_false_of_last (by decide) ?_ (last_notin '\n' (by decide) (by decide))
    refine containsSub_append_false_of_last (by decide) ?_ (last_notin '\n' (by decide) (by decide))
    refine containsSub_append_false_of_last (by decide) ?_ (last_notin '>' (by decide) (by decide))
    refine containsSub_append_false_of_last (by decide) ?_ (last_notin ')' (by decide) (by decide))
    refine containsSub_append_false_of_last (by decide) ?_ (last_notin '>' (by decide) (by decide))
    decide
  exact (containsSub_false_iff _ _).mp hco hin

theorem escapeScriptCloseAux_congr :
    ∀ f1 f2 l, l.length ≤ f1 → l.length ≤ f2 →
      escapeScriptCloseAux f1 l = escapeScriptCloseAux f2 l := by
  intro f1
  induction f1 with
  | zero =>
    intro f2 l h1 _
    have : l = [] := List.length_eq_zero.mp (Nat.le_zero.mp h1)
    subst this
    cases f2 <;> rfl
  | succ f1 ih =>
    intro f2 l h1 h2
    cases l with
    | nil => cases f2 <;> rfl
    | cons c cs =>
      cases f2 with
      | zero => simp at h2
      | succ f2 =>
        simp only [escapeScriptCloseAux]
        split
        · rw [ih f2 (List.drop 8 cs) (by simp at h1 ⊢; omega) (by simp at h2 ⊢; omega)]
        · rw [ih f2 cs (by simp at h1; omega) (by simp at h2; omega)]

theorem escapeScriptClose_cons (c : Char) (cs : Str) :
    escapeScriptClose (c :: cs) =
      if startsCI closeScriptTag (c :: cs) then
        escapedCloseScriptTag ++ escapeScriptClose (List.drop 8 cs)
      else c :: escapeScriptClose cs := by
  unfold escapeScriptClose
  simp only [List.length_cons, escapeScriptCloseAux]
  split
  · rw [escapeScriptCloseAux_congr cs.length (List.drop 8 cs).length (List.drop 8 cs)
      (by simp) le_rfl]
  · rfl

theorem startsWithL_lower_esc :
    ∀ (l p : Str), '<' ∉ p → (∀ ch ∈ p, ch.toLower = ch) →
      startsWithL p (lowerStr (escapeScriptClose l)) = true → startsCI p l = true := by
  intro l
  induction l with
  | nil =>
    intro p _ _ hs
    cases p with
    | nil => simp [startsCI]
    | cons q qs => simp [escapeScriptClose, escapeScriptCloseAux, lowerStr,
        startsWithL, List.isPrefixOf] at hs
  | cons c cs ih =>
    intro p hlt hlow hs
    rw [escapeScriptClose_cons] at hs
    by_cases hm : startsCI closeScriptTag (c :: cs)
    · rw [if_pos hm] at hs
      cases p with
      | nil => simp [startsCI]
      | cons q qs =>
        have hq : q ≠ '<' := fun he => hlt (he ▸ List.mem_cons_self q qs)
        have : lowerStr (escapedCloseScriptTag ++ escapeScriptClose (List.drop 8 cs)) =
            '<' :: lowerStr ("\\/script>".data ++ escapeScriptClose (List.drop 8 cs)) := by
          simp [lowerStr, escapedCloseScriptTag]
        rw [this] at hs
        simp [startsWithL, List.isPrefixOf] at hs
        exact absurd hs.1 hq
    · rw [if_neg hm] at hs
      cases p with
      | nil => simp [startsCI]
      | cons q qs =>
        have : lowerStr (c :: escapeScriptClose cs) =
            c.toLower :: lowerStr (escapeScriptClose cs) := by simp [lowerStr]
        rw [this] at hs
        simp only [startsWithL, List.isPrefixOf, Bool.and_eq_true, beq_iff_eq] at hs
        have hq : q = c.toLower := hs.1
        have hqs := ih qs (fun hmem => hlt (List.mem_cons_of_mem q hmem))
          (fun ch hmem => hlow ch (List.mem_cons_of_mem q hmem)) hs.2
        simp only [startsCI, Bool.and_eq_true]
        refine ⟨?_, hqs⟩
        simp only [chEqCI, beq_iff_eq]
        rw [hlow q (List.mem_cons_self q qs)]
        exact hq

theorem escape_no_close_aux :
    ∀ n l, l.length ≤ n →
      containsSub closeScriptTag (lowerStr (escapeScriptClose l)) = false := by
  intro n
  induction n with
  | zero =>
    intro l h
    have : l = [] := List.length_eq_zero.mp (Nat.le_zero.mp h)
    subst this
    decide
  | succ n ih =>
    intro l h
    cases l with
    | nil => decide
    | cons c cs =>
      rw [escapeScriptClose_cons]
      by_cases hm : startsCI closeScriptTag (c :: cs)
      · rw [if_pos hm]
        have hsplit : lowerStr (escapedCloseScriptTag ++ escapeScriptClose (List.drop 8 cs)) =
            lowerStr escapedCloseScriptTag ++ lowerStr (escapeScriptClose (List.drop 8 cs)) := by
          simp [lowerStr]
        rw [hsplit]
        refine containsSub_append_false_of_no_take (by decide) ?_ (by decide)
        exact ih (List.drop 8 cs) (by simp at h ⊢; omega)
      · rw [if_neg hm]
        have hsplit : lowerStr (c :: escapeScriptClose cs) =
            c.toLower :: lowerStr (escapeScriptClose cs) := by simp [lowerStr]
        rw [hsplit]
        have htail := ih cs (by simp at h; omega)
        simp only [containsSub, Bool.or_eq_false_iff]
        refine ⟨?_, htail⟩
        by_cases hlt : c.toLower = '<'
        · cases hstart : startsWithL closeScriptTag (c.toLower :: lowerStr (escapeScriptClose cs)) with
          | false => rfl
          | true =>
            have h2 : startsWithL "/script>".data (lowerStr (escapeScriptClose cs)) = true := by
              have hct : closeScriptTag = '<' :: "/script>".data := rfl
              rw [hct] at hstart
              simp only [startsWithL, List.isPrefixOf, Bool.and_eq_true] at hstart
              exact hstart.2
            have h3 := startsWithL_lower_esc cs "/script>".data (by decide) (by decide) h2
            have h4 : startsCI closeScriptTag (c :: cs) = true := by
              have hct : closeScriptTag = '<' :: "/script>".data := rfl
              rw [hct]
              simp only [startsCI, Bool.and_eq_true]
              refine ⟨?_, h3⟩
              simp [chEqCI, hlt]
            exact absurd h4 hm
        · have hct : closeScriptTag = '<' :: "/script>".data := rfl
          rw [hct]
          simp only [startsWithL, List.isPrefixOf, Bool.and_eq_false_iff]
          left
          simp
          exact fun he => hlt he.symm

/-- Claim C8: the closing-script-tag escaping applied to inlined script
content (in the user-index-html inline branch and in the fallback shell)
leaves no case-insensitive occurrence of a closing script tag in the
escaped content, so no inlined content can prematurely terminate the
enclosing script element. -/
theorem escaped_scripts_cannot_terminate (content : Str) :
    containsCI closeScriptTag (escapeScriptClose content) = false := by
  rw [containsCI_eq]
  have hlow : lowerStr closeScriptTag = closeScriptTag := by decide
  rw [hlow]
  exact escape_no_close_aux content.length content le_rfl

/-- Claim C7: a script reference whose src is an absolute or external URL
(http(s) or protocol-relative) is left byte-for-byte unchanged by the
script-src replace of the assembler: its callback returns the matched text
itself, and the global scanner emits the matched segment verbatim before
continuing after it -- so such a reference is never inlined and never
rewritten, regardless of the file set's contents. -/
theorem external_scripts_untouched (files : FileSet) (l before src after : Str)
    (n fuel : Nat)
    (hm : tryMatchScriptTag l = some (before, src, after, n))
    (hext : startsWithL "http".data src = true ∨ startsWithL "//".data src = true) :
    scriptTagCallback files (List.take n l) before src after = List.take n l ∧
    replaceScriptTagsAux files (fuel + 1) l =
      List.take n l ++ replaceScriptTagsAux files fuel (List.drop n l) := by
  have hcb : scriptTagCallback files (List.take n l) before src after = List.take n l := by
    unfold scriptTagCallback
    rcases hext with h | h <;> rw [if_pos (by simp [h])]
  refine ⟨hcb, ?_⟩
  cases l with
  | nil =>
    rw [show tryMatchScriptTag [] = none from by
      simp [tryMatchScriptTag, startsCI]] at hm
    cases hm
  | cons c cs =>
    simp only [replaceScriptTagsAux, hm]
    rw [hcb]

/-- Witness for C7 at a concrete external (https) script tag. -/
theorem external_scripts_untouched_witness :
    scriptTagCallback [("a.js".data, "window".data)]
      (List.take 36 "<script src=\"https://a.js\"></script><p>x</p>".data)
      " ".data "https://a.js".data [] =
      List.take 36 "<script src=\"https://a.js\"></script><p>x</p>".data ∧
    replaceScriptTagsAux [("a.js".data, "window".data)] 9
      "<script src=\"https://a.js\"></script><p>x</p>".data =
      List.take 36 "<script src=\"https://a.js\"></script><p>x</p>".data ++
        replaceScriptTagsAux [("a.js".data, "window".data)] 8
          (List.drop 36 "<script src=\"https://a.js\"></script><p>x</p>".data) :=
  external_scripts_untouched [("a.js".data, "window".data)]
    "<script src=\"https://a.js\"></script><p>x</p>".data
    " ".data "https://a.js".data [] 36 8 (by decide) (Or.inl (by decide))

/-- Claim C6 (amended): a script reference to a local path whose resolved
file-set content is an UploadedAssetMarker — excluding a src that contains
p5 or cdn.jsdelivr.net, which the keep-guard of the rewrite callback
returns untouched even when its content is a marker — is rewritten by the
assembler to the fixed server route /file/<normalized-path>, in development
and production alike (the development-proxy / production-static distinction
of the injected asset layer plays no part in this rewrite). -/
theorem uploaded_script_rewritten_to_file_route (files : FileSet)
    (matched before src after content : Str)
    (hng : (containsSub "cdn.jsdelivr.net".data src || containsSub "p5".data src ||
      startsWithL "http".data src || startsWithL "//".data src) = false)
    (hfound : firstFound files [dropSlashes (trimL src), src,
        lastSegment (dropSlashes (trimL src)), trimL src,
        '/' :: dropSlashes (trimL src), dropDotSlash (dropSlashes (trimL src))] =
      some content)
    (hmarker : startsWithL uploadedFileMarker content = true) :
    scriptTagCallback files matched before src after =
      "<script".data ++ before ++ "src=\"/file/".data ++ dropSlashes (trimL src) ++
        "\"".data ++ after ++ "></script>".data := by
  unfold scriptTagCallback
  rw [if_neg (by simp [hng])]
  dsimp only
  rw [hfound]
  dsimp only
  rw [if_pos hmarker]

/-- Witness for the amended C6 at a concrete uploaded-marker script. -/
theorem uploaded_script_rewritten_to_file_route_witness :
    scriptTagCallback [("lib.js".data, "#UPLOADED_FILE#assets/lib123.js#".data)]
      "<script src=\"lib.js\"></script>".data " ".data "lib.js".data [] =
      "<script".data ++ " ".data ++ "src=\"/file/".data ++
        dropSlashes (trimL "lib.js".data) ++ "\"".data ++ [] ++ "></script>".data :=
  uploaded_script_rewritten_to_file_route
    [("lib.js".data, "#UPLOADED_FILE#assets/lib123.js#".data)]
    "<script src=\"lib.js\"></script>".data " ".data "lib.js".data []
    "#UPLOADED_FILE#assets/lib123.js#".data (by decide) (by decide) (by decide)

/-- Counterexample to C6 as stated: the uploaded-marker script reference
lib.js (stored as assets/lib123.js) is rewritten to src="/file/lib.js",
which is neither the development proxy route /api/file/lib.js nor the
production static route /assets/lib123.js named by the claim. -/
theorem uploaded_script_not_proxy_or_static_route :
    scriptTagCallback [("lib.js".data, "#UPLOADED_FILE#assets/lib123.js#".data)]
      "<script src=\"lib.js\"></script>".data " ".data "lib.js".data [] =
      "<script src=\"/file/lib.js\"></script>".data ∧
    "<script src=\"/file/lib.js\"></script>".data ≠
      "<script src=\"/api/file/lib.js\"></script>".data ∧
    "<script src=\"/file/lib.js\"></script>".data ≠
      "<script src=\"/assets/lib123.js\"></script>".data := by
  decide

theorem startsCI_append_left {p l : Str} (y : Str) (h : p.length ≤ l.length) :
    startsCI p (l ++ y) = startsCI p l := by
  induction p generalizing l with
  | nil => simp [startsCI]
  | cons a as ih =>
    cases l with
    | nil => simp at h
    | cons b bs =>
      simp only [List.cons_append, startsCI]
      rw [List.append_eq, ih (by simpa using h)]

theorem containsCI_false_starts {p x : Str} (hx : containsCI p x = false) :
    ∀ k, startsCI p (List.drop k x) = false := by
  induction x with
  | nil =>
    intro k
    simpa [containsCI] using hx
  | cons c cs ih =>
    intro k
    simp only [containsCI, Bool.or_eq_false_iff] at hx
    cases k with
    | zero => exact hx.1
    | succ k => exact ih hx.2 k

theorem startsCI_append_span {p s y : Str} (hs : startsCI p (s ++ y) = true)
    (hl : s.length ≤ p.length) : startsCI (List.take s.length p) s = true := by
  induction s generalizing p with
  | nil => simp [startsCI]
  | cons c cs ih =>
    cases p with
    | nil => simp at hl
    | cons a as =>
      simp only [List.cons_append, startsCI, Bool.and_eq_true] at hs
      simp only [List.length_cons, List.take_succ_cons, startsCI, Bool.and_eq_true]
      exact ⟨hs.1, ih hs.2 (by simpa using hl)⟩

theorem startsCI_full_last {q s : Str} (h : startsCI q s = true)
    (hlen : q.length = s.length) (hne : s ≠ []) :
    ∃ d e, s.getLast? = some d ∧ e ∈ q ∧ e.toLower = d.toLower := by
  induction s generalizing q with
  | nil => exact absurd rfl hne
  | cons c cs ih =>
    cases q with
    | nil => simp at hlen
    | cons a as =>
      simp only [startsCI, Bool.and_eq_true, chEqCI, beq_iff_eq] at h
      cases hcs : cs with
      | nil =>
        have : as = [] := by
          rw [hcs] at hlen
          simpa using List.length_eq_zero.mp (by simpa using hlen)
        refine ⟨c, a, ?_, List.mem_cons_self a as, h.1⟩
        simp [hcs]
      | cons c2 cs2 =>
        rw [← hcs]
        have hne2 : cs ≠ [] := by simp [hcs]
        obtain ⟨d, e, hd, he, hde⟩ := ih h.2 (by simpa using hlen) hne2
        refine ⟨d, e, ?_, List.mem_cons_of_mem a he, hde⟩
        rw [List.getLast?_cons, hd]
        cases cs <;> simp_all [List.getLast?_cons]

theorem getLast?_drop_of_ne {x : Str} {k : Nat} (h : List.drop k x ≠ []) :
    (List.drop k x).getLast? = x.getLast? := by
  conv_rhs => rw [← List.take_append_drop k x]
  rw [List.getLast?_append]
  cases hd : (List.drop k x).getLast? with
  | none => exact absurd (List.getLast?_eq_none_iff.mp hd) h
  | some d => simp

theorem noStartsCI_span {p x : Str} (y : Str) (d : Char) {k : Nat}
    (hd : x.getLast? = some d)
    (hp : ∀ e ∈ List.dropLast p, e.toLower ≠ d.toLower)
    (hk : k < x.length) (hshort : x.length < k + p.length) :
    startsCI p (List.drop k x ++ y) = false := by
  by_contra hcon
  have hs : startsCI p (List.drop k x ++ y) = true := by
    cases h : startsCI p (List.drop k x ++ y)
    · exact absurd h hcon
    · rfl
  have hlens : (List.drop k x).length = x.length - k := List.length_drop k x
  have hne : List.drop k x ≠ [] := by
    intro hc
    rw [hc] at hlens
    simp at hlens
    omega
  have hlt : (List.drop k x).length < p.length := by omega
  have htake := startsCI_append_span hs (le_of_lt hlt)
  have htl : (List.take (List.drop k x).length p).length = (List.drop k x).length := by
    rw [List.length_take]
    omega
  obtain ⟨d2, e, hd2, he, hde⟩ := startsCI_full_last htake htl hne
  have hdd : d2 = d := by
    rw [getLast?_drop_of_ne hne, hd] at hd2
    exact (Option.some.inj hd2).symm
  have hsub : List.take (List.drop k x).length p =
      List.take (List.drop k x).length (List.dropLast p) := by
    rw [List.dropLast_eq_take, List.take_take]
    congr 1
    omega
  have he2 : e ∈ List.dropLast p := List.take_subset _ _ (hsub ▸ he)
  exact hp e he2 (hdd ▸ hde)

theorem noStartsCI_of_contains {p x : Str} (y : Str) (j k : Nat)
    (hx : containsCI p (List.drop j x) = false) (hjk : j ≤ k)
    (hlen : k + p.length ≤ x.length) :
    startsCI p (List.drop k x ++ y) = false := by
  have h1 : startsCI p (List.drop k x) = false := by
    have h2 := containsCI_false_starts hx (k - j)
    rw [List.drop_drop] at h2
    rw [show j + (k - j) = k from by omega] at h2
    exact h2
  rw [startsCI_append_left y (by rw [List.length_drop]; omega)]
  exact h1

theorem tryMatchScriptTag_none_of {l : Str} (h : startsCI "<script".data l = false) :
    tryMatchScriptTag l = none := by
  simp [tryMatchScriptTag, h]

theorem tryMatchCssLink_none_of {l : Str} (h : startsCI "<link".data l = false) :
    tryMatchCssLink l = none := by
  simp [tryMatchCssLink, h]

theorem replaceScriptTagsAux_skip (files : FileSet) :
    ∀ (x y : Str) (fuel : Nat),
      (∀ k < x.length, tryMatchScriptTag (List.drop k x ++ y) = none) →
      replaceScriptTagsAux files (x.length + fuel) (x ++ y) =
        x ++ replaceScriptTagsAux files fuel y := by
  intro x
  induction x with
  | nil => intro y fuel _; simp
  | cons c cs ih =>
    intro y fuel h
    have h0 := h 0 (by simp)
    simp only [List.drop_zero, List.cons_append] at h0
    rw [show (c :: cs).length + fuel = cs.length + fuel + 1 from by simp; omega]
    simp only [List.cons_append, replaceScriptTagsAux, List.append_eq]
    rw [h0]
    rw [ih y fuel (fun k hk => by
      have h1 := h (k + 1) (by simpa using Nat.succ_lt_succ hk)
      simpa using h1)]

theorem replaceCssLinksAux_skip (files : FileSet) :
    ∀ (x y : Str) (fuel : Nat),
      (∀ k < x.length, tryMatchCssLink (List.drop k x ++ y) = none) →
      replaceCssLinksAux files (x.length + fuel) (x ++ y) =
        x ++ replaceCssLinksAux files fuel y := by
  intro x
  induction x with
  | nil => intro y fuel _; simp
  | cons c cs ih =>
    intro y fuel h
    have h0 := h 0 (by simp)
    simp only [List.drop_zero, List.cons_append] at h0
    rw [show (c :: cs).length + fuel = cs.length + fuel + 1 from by simp; omega]
    simp only [List.cons_append, replaceCssLinksAux, List.append_eq]
    rw [h0]
    rw [ih y fuel (fun k hk => by
      have h1 := h (k + 1) (by simpa using Nat.succ_lt_succ hk)
      simpa using h1)]

theorem splitAtPatCI_append {pat : Str} :
    ∀ (x y : Str), (∀ k < x.length, startsCI pat (List.drop k x ++ y) = false) →
      splitAtPatCI pat (x ++ y) =
        (match splitAtPatCI pat y with
         | some (pre, rest) => some (x ++ pre, rest)
         | none => none) := by
  intro x
  induction x with
  | nil =>
    intro y _
    simp only [List.nil_append]
    cases hs : splitAtPatCI pat y with
    | none => rfl
    | some pr => cases pr with | mk pre rest => simp
  | cons c cs ih =>
    intro y h
    have h0 := h 0 (by simp)
    simp only [List.drop_zero, List.cons_append] at h0
    simp only [List.cons_append, splitAtPatCI, List.append_eq]
    rw [if_neg (by simp [h0])]
    rw [ih y (fun k hk => by
      have h1 := h (k + 1) (by simpa using Nat.succ_lt_succ hk)
      simpa using h1)]
    cases hs : splitAtPatCI pat y with
    | none => rfl
    | some pr => cases pr with | mk pre rest => rfl

theorem replaceFirstCI_append {pat rep : Str} (x y : Str)
    (h : ∀ k < x.length, startsCI pat (List.drop k x ++ y) = false) :
    replaceFirstCI pat rep (x ++ y) = x ++ replaceFirstCI pat rep y := by
  unfold replaceFirstCI
  rw [splitAtPatCI_append x y h]
  cases hs : splitAtPatCI pat y with
  | none => rfl
  | some pr =>
    cases pr with
    | mk pre rest => simp [List.append_assoc]

theorem startsCI_head_ne {p0 c : Char} {ps cs : Str} (h : chEqCI p0 c = false) :
    startsCI (p0 :: ps) (c :: cs) = false := by
  simp [startsCI, h]

theorem noStartsCI_all (p u w : Str)
    (hc : containsCI p u = false)
    (hlast : u.getLast? = some '>')
    (hp : ∀ e ∈ List.dropLast p, e.toLower ≠ '>'.toLower) :
    ∀ k < u.length, startsCI p (List.drop k u ++ w) = false := by
  intro k hk
  by_cases hlen : k + p.length ≤ u.length
  · exact noStartsCI_of_contains w 0 k (by simpa using hc) (Nat.zero_le k) hlen
  · exact noStartsCI_span w '>' hlast hp hk (by omega)

theorem tryMatchScriptAtAux_gt (b t : Str) : tryMatchScriptAtAux b ('>' :: t) = none := by
  have hs : startsCI "src=".data ('>' :: t) = false :=
    startsCI_head_ne (by decide)
  simp [tryMatchScriptAtAux, hs]

theorem matchTagOpenCI_shape {t l pre tag post : Str}
    (h : matchTagOpenCI t l = some (pre, tag, post)) : ∃ tb, tag = tb ++ ['>'] := by
  unfold matchTagOpenCI at h
  cases h1 : splitAtPatCI ('<' :: t) l with
  | none => rw [h1] at h; cases h
  | some pr =>
    rw [h1] at h
    obtain ⟨a, b⟩ := pr
    dsimp only at h
    cases h2 : splitAtChar '>' b with
    | none => rw [h2] at h; cases h
    | some pr2 =>
      obtain ⟨tb, c⟩ := pr2
      rw [h2] at h
      dsimp only at h
      simp only [Option.some.injEq, Prod.mk.injEq] at h
      exact ⟨tb, h.2.1.symm⟩

theorem consoleFrag_no_cssmatch (w : Str) :
    ∀ k < buildConsoleInterceptionScript.data.length,
      tryMatchCssLink (List.drop k buildConsoleInterceptionScript.data ++ w) = none :=
  fun k hk => tryMatchCssLink_none_of
    (noStartsCI_all "<link".data buildConsoleInterceptionScript.data w
      (by decide) (by decide) (by decide) k hk)

theorem consoleFrag_no_scriptmatch (w : Str) :
    ∀ k < buildConsoleInterceptionScript.data.length,
      tryMatchScriptTag (List.drop k buildConsoleInterceptionScript.data ++ w) = none := by
  intro k hk
  match k with
  | 0 => exact rfl
  | 1 => exact rfl
  | (j + 2) =>
    apply tryMatchScriptTag_none_of
    by_cases hlen : (j + 2) + "<script>".data.length - 1 ≤
        buildConsoleInterceptionScript.data.length
    · refine noStartsCI_of_contains w 2 (j + 2) (by decide) (by omega) ?_
      have h7 : ("<script".data : Str).length = 7 := rfl
      have h8 : ("<script>".data : Str).length = 8 := rfl
      omega
    · refine noStartsCI_span w '>' (by decide) (by decide) hk ?_
      have h8 : ("<script>".data : Str).length = 8 := rfl
      have h7 : ("<script".data : Str).length = 7 := rfl
      omega

theorem consoleFrag_no_pat (p w : Str)
    (hc : containsCI p buildConsoleInterceptionScript.data = false)
    (hp : ∀ e ∈ List.dropLast p, e.toLower ≠ '>'.toLower) :
    ∀ k < buildConsoleInterceptionScript.data.length,
      startsCI p (List.drop k buildConsoleInterceptionScript.data ++ w) = false :=
  noStartsCI_all p buildConsoleInterceptionScript.data w hc (by decide) hp

theorem buildFromUserIndexHtml_console (nodeId html cssText jsText : Str)
    (files : FileSet) (pre tag post : Str)
    (hhead : containsCI "<head".data html = true)
    (hbody : containsCI "<body".data html = true)
    (hm : matchTagOpenCI "head".data html = some (pre, tag, post))
    (hscript : containsCI "<script".data (pre ++ tag) = false)
    (hlink : containsCI "<link".data (pre ++ tag) = false)
    (hheadc : containsCI "</head>".data (pre ++ tag) = false)
    (hbodyc : containsCI "</body>".data (pre ++ tag) = false) :
    ∃ v, buildFromUserIndexHtml nodeId html cssText jsText files false =
      (pre ++ tag) ++ (buildConsoleInterceptionScript.data ++ v) := by
  obtain ⟨tb, htb⟩ := matchTagOpenCI_shape hm
  have hlastu : (pre ++ tag).getLast? = some '>' := by
    rw [htb, show pre ++ (tb ++ ['>']) = (pre ++ tb) ++ ['>'] from
      (List.append_assoc pre tb ['>']).symm, List.getLast?_concat]
  have hcssU : ∀ w : Str, ∀ k < (pre ++ tag).length,
      tryMatchCssLink (List.drop k (pre ++ tag) ++ w) = none :=
    fun w k hk => tryMatchCssLink_none_of
      (noStartsCI_all "<link".data (pre ++ tag) w hlink hlastu (by decide) k hk)
  have hscrU : ∀ w : Str, ∀ k < (pre ++ tag).length,
      tryMatchScriptTag (List.drop k (pre ++ tag) ++ w) = none :=
    fun w k hk => tryMatchScriptTag_none_of
      (noStartsCI_all "<script".data (pre ++ tag) w hscript hlastu (by decide) k hk)
  have hheadU : ∀ w : Str, ∀ k < (pre ++ tag).length,
      startsCI "</head>".data (List.drop k (pre ++ tag) ++ w) = false :=
    fun w => noStartsCI_all "</head>".data (pre ++ tag) w hheadc hlastu (by decide)
  have hbodyU : ∀ w : Str, ∀ k < (pre ++ tag).length,
      startsCI "</body>".data (List.drop k (pre ++ tag) ++ w) = false :=
    fun w => noStartsCI_all "</body>".data (pre ++ tag) w hbodyc hlastu (by decide)
  have hheadF : ∀ w : Str, ∀ k < buildConsoleInterceptionScript.data.length,
      startsCI "</head>".data (List.drop k buildConsoleInterceptionScript.data ++ w) = false :=
    fun w => consoleFrag_no_pat "</head>".data w (by decide) (by decide)
  have hbodyF : ∀ w : Str, ∀ k < buildConsoleInterceptionScript.data.length,
      startsCI "</body>".data (List.drop k buildConsoleInterceptionScript.data ++ w) = false :=
    fun w => consoleFrag_no_pat "</body>".data w (by decide) (by decide)
  have h1 : ensureHead html = html := by simp [ensureHead, hhead]
  have h2 : ensureBody html = html := by simp [ensureBody, hbody]
  have h3 : injectConsole html =
      (pre ++ tag) ++ (buildConsoleInterceptionScript.data ++ post) := by
    unfold injectConsole
    rw [hm]
    simp [List.append_assoc]
  have hcss : ∀ w : Str,
      replaceCssLinks files ((pre ++ tag) ++ (buildConsoleInterceptionScript.data ++ w)) =
      (pre ++ tag) ++ (buildConsoleInterceptionScript.data ++ replaceCssLinks files w) := by
    intro w
    unfold replaceCssLinks
    rw [show ((pre ++ tag) ++ (buildConsoleInterceptionScript.data ++ w)).length =
      (pre ++ tag).length + (buildConsoleInterceptionScript.data.length + w.length) from by
      simp [List.length_append, Nat.add_assoc]]
    rw [replaceCssLinksAux_skip files (pre ++ tag)
      (buildConsoleInterceptionScript.data ++ w)
      (buildConsoleInterceptionScript.data.length + w.length) (hcssU _)]
    congr 1
    rw [replaceCssLinksAux_skip files buildConsoleInterceptionScript.data w w.length
      (consoleFrag_no_cssmatch w)]
  have hscr : ∀ w : Str,
      replaceScriptTags files ((pre ++ tag) ++ (buildConsoleInterceptionScript.data ++ w)) =
      (pre ++ tag) ++ (buildConsoleInterceptionScript.data ++ replaceScriptTags files w) := by
    intro w
    unfold replaceScriptTags
    rw [show ((pre ++ tag) ++ (buildConsoleInterceptionScript.data ++ w)).length =
      (pre ++ tag).length + (buildConsoleInterceptionScript.data.length + w.length) from by
      simp [List.length_append, Nat.add_assoc]]
    rw [replaceScriptTagsAux_skip files (pre ++ tag)
      (buildConsoleInterceptionScript.data ++ w)
      (buildConsoleInterceptionScript.data.length + w.length) (hscrU _)]
    congr 1
    rw [replaceScriptTagsAux_skip files buildConsoleInterceptionScript.data w w.length
      (consoleFrag_no_scriptmatch w)]
  have hrhead : ∀ rep w : Str, replaceFirstCI "</head>".data rep
      ((pre ++ tag) ++ (buildConsoleInterceptionScript.data ++ w)) =
      (pre ++ tag) ++ (buildConsoleInterceptionScript.data ++
        replaceFirstCI "</head>".data rep w) := by
    intro rep w
    exact (replaceFirstCI_append (pre ++ tag)
        (buildConsoleInterceptionScript.data ++ w) (hheadU _)).trans
      (congrArg (fun t => (pre ++ tag) ++ t)
        (replaceFirstCI_append buildConsoleInterceptionScript.data w (hheadF w)))
  have hrbody : ∀ rep w : Str, replaceFirstCI "</body>".data rep
      ((pre ++ tag) ++ (buildConsoleInterceptionScript.data ++ w)) =
      (pre ++ tag) ++ (buildConsoleInterceptionScript.data ++
        replaceFirstCI "</body>".data rep w) := by
    intro rep w
    exact (replaceFirstCI_append (pre ++ tag)
        (buildConsoleInterceptionScript.data ++ w) (hbodyU _)).trans
      (congrArg (fun t => (pre ++ tag) ++ t)
        (replaceFirstCI_append buildConsoleInterceptionScript.data w (hbodyF w)))
  have hfinal : ∀ W : Str, ∃ v,
      injectThumbAndP5 nodeId ((pre ++ tag) ++ (buildConsoleInterceptionScript.data ++ W)) =
      (pre ++ tag) ++ (buildConsoleInterceptionScript.data ++ v) := by
    intro W
    unfold injectThumbAndP5
    split
    · rw [hrbody]
      exact ⟨_, rfl⟩
    · rw [hrbody]
      exact ⟨_, rfl⟩
  unfold buildFromUserIndexHtml
  dsimp only
  rw [h1, h2, h3]
  simp only [Bool.false_eq_true, if_false]
  rw [hcss, hscr]
  by_cases hup : (uploadedFilesOf files).isEmpty
  · rw [if_neg (by simp [hup])]
    exact hfinal _
  · rw [if_pos (by simp [hup])]
    rw [hrhead]
    exact hfinal _

/-- C5: for every FileSet with an entry HTML document (non-blank index.html
with a head-open tag, where the document region up to and including that tag
carries no script tag, css link, or head/body close), the assembled document
places the console-interception fragment immediately after the head-open tag,
hence before any author script tag originally present in that head. -/
theorem console_first_in_head (nodeId : Str) (files : FileSet)
    (html pre tag post : Str)
    (hentry : files.get "index.html".data = some html)
    (htrim : (trimL html).isEmpty = false)
    (hhead : containsCI "<head".data html = true)
    (hbody : containsCI "<body".data html = true)
    (hm : matchTagOpenCI "head".data html = some (pre, tag, post))
    (hscript : containsCI "<script".data (pre ++ tag) = false)
    (hlink : containsCI "<link".data (pre ++ tag) = false)
    (hheadc : containsCI "</head>".data (pre ++ tag) = false)
    (hbodyc : containsCI "</body>".data (pre ++ tag) = false) :
    ∃ v, buildSrcdoc nodeId files false =
      (pre ++ tag) ++ (buildConsoleInterceptionScript.data ++ v) := by
  unfold buildSrcdoc
  dsimp only
  rw [hentry]
  dsimp only
  rw [if_pos (show (!(trimL html).isEmpty) = true by rw [htrim]; rfl)]
  exact buildFromUserIndexHtml_console nodeId html (buildCss files false)
    (buildJs files) files pre tag post hhead hbody hm hscript hlink hheadc hbodyc

theorem console_first_in_head_witness :
    ∃ v, buildSrcdoc "n1".data
      [("index.html".data,
        "<html><head><script>console.log(1)</script></head><body></body></html>".data),
       ("sketch.js".data, "let x=1;".data)] false =
      ("<html>".data ++ "<head>".data) ++ (buildConsoleInterceptionScript.data ++ v) :=
  console_first_in_head "n1".data
    [("index.html".data,
      "<html><head><script>console.log(1)</script></head><body></body></html>".data),
     ("sketch.js".data, "let x=1;".data)]
    "<html><head><script>console.log(1)</script></head><body></body></html>".data
    "<html>".data "<head>".data
    "<script>console.log(1)</script></head><body></body></html>".data
    (by decide) (by decide) (by decide) (by decide) (by decide)
    (by decide) (by decide) (by decide) (by decide)
